import Mathlib

/-!
Verification development for the BadSMTP server core (Go).

This file gives a shallow embedding of the per-connection SMTP session
engine: the error-pattern extractor (smtp/errors.go), command parsing and
state rules (smtp package), and the session handlers and response writer
(server/session.go).  Pure Go functions become Lean functions; the session
struct becomes a record and each handler is a function from the session
(plus an environment standing for the external collaborators: connection
reads, the TLS handshake, the authenticator dialogue and the message store)
to a result that records the new session, the lines written to the wire,
whether the connection was closed, the Store calls made, and the Go return
value (nil / io.EOF / a non-nil error).

Modelling conventions, noted once here:
* Go byte strings are Lean strings; where Go measures bytes (len) we use
  String.utf8ByteSize, and where it indexes runes we use character lists.
  All string constants involved are ASCII, where the two agree.
* Go strings.ToLower / ToUpper / EqualFold are Unicode aware; the models
  here fold ASCII only.  Every case operation in the code is applied to
  data that is compared against ASCII patterns, where the two agree.
* Network writes are modelled as always succeeding; write failures only
  terminate the session early and no claim concerns them.
-/

namespace BadSMTP

/-! ## Small string helpers mirroring the Go standard library -/

/-- Value of a list of decimal digit characters. -/
def digitsToNat (ds : List Char) : Nat :=
  ds.foldl (fun acc c => 10 * acc + (c.toNat - 48)) 0

/-- Largest int64, the overflow bound of Go strconv.Atoi on 64-bit. -/
def int64Max : Nat := 9223372036854775807

/-- Model of Go strconv.Atoi: optional sign, then a nonempty run of digits,
failing (None) on empty input, stray characters, or int64 overflow. -/
def go_atoi (s : String) : Option Int :=
  match s.data with
  | [] => none
  | '+' :: ds =>
      if ds ≠ [] ∧ ds.all Char.isDigit ∧ digitsToNat ds ≤ int64Max
      then some (Int.ofNat (digitsToNat ds)) else none
  | '-' :: ds =>
      if ds ≠ [] ∧ ds.all Char.isDigit ∧ digitsToNat ds ≤ int64Max + 1
      then some (-(Int.ofNat (digitsToNat ds))) else none
  | ds =>
      if ds.all Char.isDigit ∧ digitsToNat ds ≤ int64Max
      then some (Int.ofNat (digitsToNat ds)) else none

/-- Model of Go strings.Contains (substring containment). -/
def strContainsAux (needle : List Char) : List Char → Bool
  | [] => needle.isEmpty
  | c :: rest => needle.isPrefixOf (c :: rest) || strContainsAux needle rest

/-- Model of Go strings.Contains on strings. -/
def strContains (hay needle : String) : Bool :=
  strContainsAux needle.data hay.data

/-- ASCII lowercase of one character (the Go strings.ToLower effect on
the ASCII data all claims use). -/
def asciiLower (c : Char) : Char :=
  if 'A' ≤ c ∧ c ≤ 'Z' then Char.ofNat (c.toNat + 32) else c

/-- ASCII uppercase of one character. -/
def asciiUpper (c : Char) : Char :=
  if 'a' ≤ c ∧ c ≤ 'z' then Char.ofNat (c.toNat - 32) else c

/-- Model of Go strings.ToLower (ASCII fragment). -/
def goToLower (s : String) : String :=
  String.mk (s.data.map asciiLower)

/-- Model of Go strings.ToUpper (ASCII fragment). -/
def goToUpper (s : String) : String :=
  String.mk (s.data.map asciiUpper)

/-- Model of Go strings.TrimSpace: drop whitespace from both ends. -/
def goTrimSpace (s : String) : String :=
  String.mk (((s.data.dropWhile Char.isWhitespace).reverse.dropWhile
    Char.isWhitespace).reverse)

/-- Split a character list at every character satisfying the predicate;
empty segments are kept (Go strings.Split semantics). -/
def splitOnPredAux (p : Char → Bool) : List Char → List Char → List String
  | [], cur => [String.mk cur.reverse]
  | c :: rest, cur =>
      if p c then String.mk cur.reverse :: splitOnPredAux p rest []
      else splitOnPredAux p rest (c :: cur)

/-- Model of Go strings.Split with a one-character separator. -/
def goSplitChar (sep : Char) (s : String) : List String :=
  splitOnPredAux (fun c => c = sep) s.data []

/-- Model of Go strings.Fields: split around runs of whitespace. -/
def goFields (s : String) : List String :=
  (splitOnPredAux Char.isWhitespace s.data []).filter (fun t => t ≠ "")

/-- Model of Go strings.HasPrefix. -/
def goHasPrefix (s pre : String) : Bool :=
  pre.data.isPrefixOf s.data

/-- Model of Go strings.TrimPrefix. -/
def goTrimPrefix (s pre : String) : String :=
  if goHasPrefix s pre then String.mk (s.data.drop pre.data.length) else s

/-- Model of Go strings.TrimLeft with cutset " \t". -/
def trimLeftSpaceTab (s : String) : String :=
  String.mk (s.data.dropWhile (fun c => c = ' ' ∨ c = '\t'))

/-- Model of Go strings.Trim with a cutset: drop cutset characters from
both ends. -/
def goTrimCutset (s : String) (cutset : List Char) : String :=
  String.mk (((s.data.dropWhile (cutset.contains ·)).reverse.dropWhile
    (cutset.contains ·)).reverse)

/-- Model of Go strings.EqualFold, restricted to ASCII folding. -/
def goEqualFold (a b : String) : Bool :=
  goToLower a = goToLower b

/-- First line of a possibly multi-line response: the prefix before the
first CRLF (Go strings.Index on a backslash-r backslash-n separator). -/
def firstLineOf (s : String) : String :=
  String.mk (firstLineAux s.data)
where
  firstLineAux : List Char → List Char
  | [] => []
  | '\r' :: '\n' :: _ => []
  | c :: rest => c :: firstLineAux rest

/-! ## smtp/errors.go -/

/-- ErrorResult from smtp/errors.go: main code, optional RFC2034 enhanced
code, and the preformatted message. -/
structure ErrorResult where
  Code : Nat
  Enhanced : String
  Message : String
deriving DecidableEq, Repr

/-- GetErrorMessage from smtp/errors.go: the fixed code to canonical
message mapping; any code outside it yields "Unknown error". -/
def GetErrorMessage (code : Nat) : String :=
  if code = 421 then "Service not available, closing transmission channel"
  else if code = 450 then "Requested mail action not taken: mailbox unavailable"
  else if code = 451 then "Requested action aborted: local error in processing"
  else if code = 452 then "Requested action not taken: insufficient system storage"
  else if code = 500 then "Syntax error, command unrecognized"
  else if code = 501 then "Syntax error in parameters or arguments"
  else if code = 502 then "Command not implemented"
  else if code = 503 then "Bad sequence of commands"
  else if code = 504 then "Command parameter not implemented"
  else if code = 521 then "Machine does not accept mail"
  else if code = 535 then "Authentication failed"
  else if code = 550 then "Requested action not taken: mailbox unavailable"
  else if code = 551 then "User not local; please try forward path"
  else if code = 552 then "Requested mail action aborted: exceeded storage allocation"
  else if code = 553 then "Requested action not taken: mailbox name not allowed"
  else if code = 554 then "Transaction failed"
  else if code = 571 then "Blocked - see https://example.com/blocked"
  else "Unknown error"

/-- The domain of the errorMessages map in smtp/errors.go. -/
def knownErrorCodes : List Nat :=
  [421, 450, 451, 452, 500, 501, 502, 503, 504, 521, 535, 550, 551, 552, 553, 554, 571]

/-- Lowercase ASCII letter test, the regex class [a-z]. -/
def isLowerAZ (c : Char) : Bool :=
  'a' ≤ c ∧ c ≤ 'z'

/-- Match of the anchored basic pattern from smtp/errors.go,
a caret then ([a-z]+)(three digits)@ : returns (verb, code). -/
def matchBasic (cs : List Char) : Option (String × Nat) :=
  let letters := cs.takeWhile isLowerAZ
  let rest := cs.dropWhile isLowerAZ
  let code := rest.take 3
  if letters ≠ [] ∧ code.length = 3 ∧ code.all Char.isDigit ∧
      (rest.drop 3).head? = some '@'
  then some (String.mk letters, digitsToNat code) else none

/-- Match of the anchored extended pattern from smtp/errors.go, a caret then
([a-z]+)(three digits)_(digits).(digits).(digits)@ :
returns (verb, code, x, y, z) with the enhanced components as digit
strings. -/
def matchExtended (cs : List Char) : Option (String × Nat × String × String × String) :=
  let letters := cs.takeWhile isLowerAZ
  let rest := cs.dropWhile isLowerAZ
  let code := rest.take 3
  let r1 := rest.drop 3
  if letters ≠ [] ∧ code.length = 3 ∧ code.all Char.isDigit ∧ r1.head? = some '_'
  then
    let x := (r1.drop 1).takeWhile Char.isDigit
    let r2 := (r1.drop 1).dropWhile Char.isDigit
    if x ≠ [] ∧ r2.head? = some '.' then
      let y := (r2.drop 1).takeWhile Char.isDigit
      let r3 := (r2.drop 1).dropWhile Char.isDigit
      if y ≠ [] ∧ r3.head? = some '.' then
        let z := (r3.drop 1).takeWhile Char.isDigit
        let r4 := (r3.drop 1).dropWhile Char.isDigit
        if z ≠ [] ∧ r4.head? = some '@' then
          some (String.mk letters, digitsToNat code, String.mk x, String.mk y, String.mk z)
        else none
      else none
    else none
  else none

/-- parsePrefixedError from smtp/errors.go: lowercase the email, try the
extended RFC2034 pattern first, then the basic three-digit pattern; the
captured verb must equal the expected one. -/
def parsePrefixedError (pfx email : String) : Option ErrorResult :=
  let e := goToLower email
  let basicCase : Option ErrorResult :=
    match matchBasic e.data with
    | some (verb, code) =>
        if verb = pfx then
          some ⟨code, "", toString code ++ " " ++ GetErrorMessage code⟩
        else none
    | none => none
  match matchExtended e.data with
  | some (verb, code, x, y, z) =>
      if verb = pfx then
        let enhanced := x ++ "." ++ y ++ "." ++ z
        some ⟨code, enhanced,
          toString code ++ " " ++ enhanced ++ " " ++ GetErrorMessage code⟩
      else basicCase
  | none => basicCase

/-- ExtractMailFromError from smtp/errors.go. -/
def ExtractMailFromError (email : String) : Option ErrorResult :=
  parsePrefixedError "mail" email

/-- ExtractRcptToError from smtp/errors.go. -/
def ExtractRcptToError (email : String) : Option ErrorResult :=
  parsePrefixedError "rcpt" email

/-- ExtractDataError from smtp/errors.go. -/
def ExtractDataError (email : String) : Option ErrorResult :=
  parsePrefixedError "data" email

/-- ExtractBdatError from smtp/errors.go (defined there, but never called
by the session code). -/
def ExtractBdatError (email : String) : Option ErrorResult :=
  parsePrefixedError "bdat" email

/-- ExtractRsetError from smtp/errors.go. -/
def ExtractRsetError (email : String) : Option ErrorResult :=
  parsePrefixedError "rset" email

/-- ExtractQuitError from smtp/errors.go. -/
def ExtractQuitError (email : String) : Option ErrorResult :=
  parsePrefixedError "quit" email

/-- ExtractStartTLSError from smtp/errors.go. -/
def ExtractStartTLSError (email : String) : Option ErrorResult :=
  parsePrefixedError "starttls" email

/-- ExtractNoopError from smtp/errors.go. -/
def ExtractNoopError (email : String) : Option ErrorResult :=
  parsePrefixedError "noop" email

/-- ExtractAuthError from smtp/errors.go. -/
def ExtractAuthError (email : String) : Option ErrorResult :=
  parsePrefixedError "auth" email

/-- Match of the anchored HELO pattern, a caret then
(helo or ehlo)(three digits) and a literal dot. -/
def matchHelo (cs : List Char) : Option Nat :=
  let afterVerb : Option (List Char) :=
    if ['h', 'e', 'l', 'o'].isPrefixOf cs then some (cs.drop 4)
    else if ['e', 'h', 'l', 'o'].isPrefixOf cs then some (cs.drop 4)
    else none
  match afterVerb with
  | none => none
  | some rest =>
      let code := rest.take 3
      if code.length = 3 ∧ code.all Char.isDigit ∧ (rest.drop 3).head? = some '.'
      then some (digitsToNat code) else none

/-- ExtractHeloError from smtp/errors.go: the different hostname pattern
helo(NNN). or ehlo(NNN). on the lowercased hostname. -/
def ExtractHeloError (hostname : String) : Option ErrorResult :=
  match matchHelo (goToLower hostname).data with
  | some code => some ⟨code, "", toString code ++ " " ++ GetErrorMessage code⟩
  | none => none

/-! ## smtp/state.go -/

/-- State from smtp/state.go. -/
inductive SState where
  | greeting
  | helo
  | auth
  | mail
  | rcpt
  | data
  | bdat
  | quit
deriving DecidableEq, Repr

/-- State.String from smtp/state.go. -/
def stateString : SState → String
  | .greeting => "GREETING"
  | .helo => "HELO"
  | .auth => "AUTH"
  | .mail => "MAIL"
  | .rcpt => "RCPT"
  | .data => "DATA"
  | .bdat => "BDAT"
  | .quit => "QUIT"

/-! ## smtp command parsing (commands file of the smtp package) -/

/-- Command from the smtp package: canonical uppercase name and arguments. -/
structure Command where
  name : String
  args : List String
deriving DecidableEq, Repr

/-- ParseCommand from the smtp package: split the line on whitespace,
uppercase the first token; an empty line is an error. -/
def ParseCommand (line : String) : Option Command :=
  match goFields line with
  | [] => none
  | w :: rest => some ⟨goToUpper w, rest⟩

/-- IsValid from the smtp package: membership in the built-in command set. -/
def Command.IsValid (c : Command) : Bool :=
  c.name = "HELO" ∨ c.name = "EHLO" ∨ c.name = "AUTH" ∨ c.name = "MAIL" ∨
  c.name = "RCPT" ∨ c.name = "DATA" ∨ c.name = "BDAT" ∨ c.name = "RSET" ∨
  c.name = "NOOP" ∨ c.name = "QUIT" ∨ c.name = "STARTTLS" ∨ c.name = "VRFY"

/-- ValidateArgs from the smtp package: per-command argument shape checks;
returns the error response text on failure, none on success. -/
def Command.ValidateArgs (c : Command) : Option String :=
  if c.name = "HELO" ∨ c.name = "EHLO" ∨ c.name = "AUTH" ∨ c.name = "VRFY" then
    if c.args.length < 1 then some "501 Syntax error in parameters" else none
  else if c.name = "MAIL" then
    if c.args.length < 1 ∨ ¬ goHasPrefix (goToUpper (c.args.headD "")) "FROM:"
    then some "501 Syntax error in parameters" else none
  else if c.name = "RCPT" then
    if c.args.length < 1 ∨ ¬ goHasPrefix (goToUpper (c.args.headD "")) "TO:"
    then some "501 Syntax error in parameters" else none
  else if c.name = "BDAT" then
    if c.args.length < 1 then some "501 Syntax error in parameters"
    else if c.args.length > 1 ∧ ¬ goEqualFold (c.args.getD 1 "") "LAST"
    then some "501 Syntax error in parameters" else none
  else none

/-- IsAllowedInState from the smtp package: the allowed-states table for
each built-in command. -/
def Command.IsAllowedInState (c : Command) (st : SState) : Bool :=
  if c.name = "HELO" ∨ c.name = "EHLO" then st = .helo ∨ st = .mail
  else if c.name = "AUTH" then st = .mail ∨ st = .auth
  else if c.name = "MAIL" then st = .mail
  else if c.name = "RCPT" then st = .rcpt
  else if c.name = "DATA" then st = .rcpt
  else if c.name = "BDAT" then st = .rcpt ∨ st = .bdat
  else if c.name = "RSET" then
    st = .helo ∨ st = .mail ∨ st = .rcpt ∨ st = .auth
  else if c.name = "NOOP" ∨ c.name = "QUIT" then
    st = .helo ∨ st = .mail ∨ st = .rcpt ∨ st = .data ∨ st = .bdat ∨ st = .auth
  else if c.name = "STARTTLS" then st = .helo ∨ st = .mail
  else if c.name = "VRFY" then true
  else false

/-! ## smtp address handling (address file of the smtp package) -/

/-- Symbol characters of the RFC 5322 atext class, by ASCII code:
exclamation, hash through quote, asterisk, plus, hyphen, slash, equals,
question mark, caret through backtick, brace through tilde. -/
def isAtextSymbol (c : Char) : Bool :=
  let n := c.toNat
  n = 33 ∨ (35 ≤ n ∧ n ≤ 39) ∨ n = 42 ∨ n = 43 ∨ n = 45 ∨ n = 47 ∨
  n = 61 ∨ n = 63 ∨ (94 ≤ n ∧ n ≤ 96) ∨ (123 ≤ n ∧ n ≤ 126)

/-- Character allowed in an atom by the Go net/mail parser: ASCII
alphanumerics, the atext symbols, or any non-ASCII rune (net/mail accepts
UTF-8 atoms). -/
def isAtextChar (c : Char) : Bool :=
  c.isAlpha ∨ c.isDigit ∨ isAtextSymbol c ∨ 127 < c.toNat

/-- Dot-atom: nonempty dot-separated atoms of atext characters. -/
def dotAtomOk (s : String) : Bool :=
  s ≠ "" ∧ (goSplitChar '.' s).all (fun lab => lab ≠ "" ∧ lab.data.all isAtextChar)

/-- Split a character list at its last at-sign: (local part, domain). -/
def splitAtLastAt (cs : List Char) : Option (List Char × List Char) :=
  let revDomain := cs.reverse.takeWhile (fun c => c ≠ '@')
  let rest := cs.reverse.dropWhile (fun c => c ≠ '@')
  match rest with
  | '@' :: revLocal => some (revLocal.reverse, revDomain.reverse)
  | _ => none

/-- Model of the Go standard library mail.ParseAddress, restricted to the
plain addr-spec and angle-addr forms (local at domain, with or without
surrounding angle brackets) where both sides are dot-atoms.  Display
names, quoted local parts, comments and domain literals, which the real
parser also accepts, are modelled as parse failures, sending the source
down its explicit fallback paths; no claim exercises those forms. -/
def mail_ParseAddress (raw : String) : Option String :=
  let tryPlain : String → Option String := fun r =>
    match splitAtLastAt r.data with
    | some (lcl, domain) =>
        let l := String.mk lcl
        let d := String.mk domain
        if dotAtomOk l ∧ dotAtomOk d ∧ ¬ l.data.contains '@' then some (l ++ "@" ++ d)
        else none
    | none => none
  match raw.data with
  | '<' :: rest =>
      if rest.getLast? = some '>' then tryPlain (String.mk rest.dropLast) else none
  | _ => tryPlain raw

/-- ParseAddress from the smtp package: prefer net/mail parsing, else try
each whitespace-separated token with surrounding punctuation trimmed. -/
def ParseAddress (raw : String) : String :=
  let r := goTrimSpace raw
  if r = "" then ""
  else
    match mail_ParseAddress r with
    | some a => a
    | none => parseAddressTokens (goFields r)
where
  parseAddressTokens : List String → String
  | [] => ""
  | tok :: rest =>
      let t := goTrimCutset tok ['<', '>', ',', Char.ofNat 39, '"']
      if strContains t "@" then
        match mail_ParseAddress t with
        | some a => a
        | none => t
      else parseAddressTokens rest

/-- ExtractMailboxFromArg from the smtp package: strip a case-insensitive
FROM: or TO: prefix, trim, prefer ParseAddress, else strip angle
brackets. -/
def ExtractMailboxFromArg (arg : String) : String :=
  let upper := goToUpper arg
  let a :=
    if goHasPrefix upper "FROM:" then String.mk (arg.data.drop 5)
    else if goHasPrefix upper "TO:" then String.mk (arg.data.drop 3)
    else arg
  let a := goTrimSpace a
  let p := ParseAddress a
  if p ≠ "" then p else goTrimCutset a ['<', '>']

/-- NormaliseMailbox from the smtp package: split on the last at-sign,
keep the local part case and lowercase the domain; empty if there is no
at-sign. -/
def NormaliseMailbox (mailbox : String) : String :=
  let m := goTrimSpace mailbox
  match splitAtLastAt m.data with
  | some (lcl, domain) => String.mk lcl ++ "@" ++ goToLower (String.mk domain)
  | none => ""

/-- Character of the domain regex classes from the smtp package
(Unicode letters, numbers and marks): ASCII alphanumerics, with every
non-ASCII rune treated as a letter (an overapproximation of the three
Unicode classes; all claims use ASCII domains, where it is exact). -/
def isLNM (c : Char) : Bool :=
  c.isAlpha ∨ c.isDigit ∨ 127 < c.toNat

/-- One domain label per the regex in the smtp package: 1 to 63
characters, starting and ending with a letter or digit, hyphens allowed
in between. -/
def validLabel (l : List Char) : Bool :=
  l ≠ [] ∧ l.length ≤ 63 ∧ isLNM (l.headD ' ') ∧ isLNM (l.getLastD ' ') ∧
  l.all (fun c => isLNM c ∨ c = '-')

/-- ValidateDomain from the smtp package: nonempty, at most 255 bytes,
every dot-separated label valid. -/
def ValidateDomain (domain : String) : Bool :=
  domain ≠ "" ∧ domain.utf8ByteSize ≤ 255 ∧
  (goSplitChar '.' domain).all (fun lab => validLabel lab.data)

/-- Character class of the ASCII local-part regex in the smtp package:
ASCII alphanumerics, the atext symbols, and the dot. -/
def asciiLocalChar (c : Char) : Bool :=
  c.isAlpha ∨ c.isDigit ∨ isAtextSymbol c ∨ c = '.'

/-- Nonempty match of the ASCII local-part regex. -/
def asciiLocalOk (s : String) : Bool :=
  s ≠ "" ∧ s.data.all asciiLocalChar

/-- checkParsedAddress from the smtp package: when UTF-8 local parts are
not allowed, the local part of the parsed address must be pure ASCII. -/
def checkParsedAddress (addr : String) (allowUTF8Local : Bool) : Bool :=
  match splitAtLastAt addr.data with
  | none => false
  | some (lcl, _) =>
      if ¬ allowUTF8Local then lcl.all (fun c => c.toNat ≤ 127) else true

/-- isAllowedLocalRune from the smtp package: common punctuation, then
letters and digits, with non-ASCII runes (modelled as letters) rejected
unless UTF-8 local parts are allowed. -/
def isAllowedLocalRune (c : Char) (allowUTF8Local : Bool) : Bool :=
  if isAtextSymbol c ∨ c = '.' then true
  else if c.isAlpha ∨ c.isDigit ∨ 127 < c.toNat then
    if ¬ allowUTF8Local ∧ 127 < c.toNat then false else true
  else false

/-- Model of Go strings.HasSuffix. -/
def goHasSuffix (s suf : String) : Bool :=
  suf.data.isSuffixOf s.data

/-- validateFallbackLocal from the smtp package. -/
def validateFallbackLocal (lcl : String) (allowUTF8Local : Bool) : Bool :=
  if goHasPrefix lcl "\"" ∧ goHasSuffix lcl "\"" then lcl.length ≥ 2
  else if allowUTF8Local then lcl.data.all (fun c => isAllowedLocalRune c true)
  else asciiLocalOk lcl

/-- IsValidMailbox from the smtp package: prefer net/mail parsing of the
mailbox, then of the mailbox in angle brackets, then a manual local and
domain check. -/
def IsValidMailbox (mailbox : String) (allowUTF8Local : Bool) : Bool :=
  let m := goTrimSpace mailbox
  match mail_ParseAddress m with
  | some a => checkParsedAddress a allowUTF8Local
  | none =>
  match mail_ParseAddress ("<" ++ m ++ ">") with
  | some a => checkParsedAddress a allowUTF8Local
  | none =>
  match splitAtLastAt m.data with
  | none => false
  | some (localL, domainL) =>
      let lcl := String.mk localL
      let domain := String.mk domainL
      if lcl = "" ∨ domain = "" then false
      else if lcl.utf8ByteSize > 64 ∨ domain.utf8ByteSize > 255 then false
      else if ¬ ValidateDomain domain then false
      else validateFallbackLocal lcl allowUTF8Local

/-- isDelimiter from the smtp package. -/
def isDelimiter (c : Char) : Bool :=
  c.isWhitespace ∨ c = '<' ∨ c = '>' ∨ c = '(' ∨ c = ')' ∨ c = ',' ∨
  c = ';' ∨ c = ':'

/-- Leftmost match of the angle-address pattern: an opening angle bracket,
one or more non-closing characters, a closing angle bracket. -/
def findAngle : List Char → Option (List Char)
  | [] => none
  | '<' :: rest =>
      let inner := rest.takeWhile (fun c => c ≠ '>')
      if inner ≠ [] ∧ (rest.drop inner.length).head? = some '>' then some inner
      else findAngle rest
  | _ :: rest => findAngle rest

/-- ExtractMailbox from the smtp package: ParseAddress, else the first
angle-bracketed substring, else expansion around the last at-sign up to
delimiters, trimmed of quoting punctuation. -/
def ExtractMailbox (raw : String) : String :=
  let p := ParseAddress raw
  if p ≠ "" then p
  else
    let r := goTrimSpace raw
    match findAngle r.data with
    | some inner => goTrimSpace (String.mk inner)
    | none =>
        match splitAtLastAt r.data with
        | none => ""
        | some (pre, suf) =>
            let left := (pre.reverse.takeWhile (fun c => ¬ isDelimiter c)).reverse
            let right := suf.takeWhile (fun c => ¬ isDelimiter c)
            goTrimCutset (String.mk (left ++ '@' :: right))
              ['"', Char.ofNat 39, '<', '>', ' ', ',']

/-! ## Session data model (server/session.go) -/

/-- Capabilities from server/session.go; the Go zero value has every flag
false, set during EHLO. -/
structure Capabilities where
  size : Bool := false
  pipelining : Bool := false
  enhancedStatusCodes : Bool := false
  smtputf8 : Bool := false
  chunking : Bool := false
  starttls : Bool := false
  eightBitMIME : Bool := false
deriving DecidableEq, Repr

/-- Session from server/session.go: the state machine fields.  tlsActive
models the tlsState pointer being non-nil; configHasTLS models
config.HasTLS().  Connection, logger, timing and extension-metadata
fields carry no protocol state and are omitted. -/
structure Session where
  state : SState := .greeting
  heloName : String := ""
  mailFrom : String := ""
  rcptTo : List String := []
  authenticated : Bool := false
  tlsActive : Bool := false
  configHasTLS : Bool := false
  capabilities : Capabilities := {}
  advertisedSize : Nat := 0
  responseQueue : List String := []
  pipeliningMode : Bool := false
  bdatBuffer : String := ""
  dataErrorResult : Option ErrorResult := none
  rsetErrorResult : Option ErrorResult := none
  quitErrorResult : Option ErrorResult := none
  startTLSErrorResult : Option ErrorResult := none
  noopErrorResult : Option ErrorResult := none
  authErrorResult : Option ErrorResult := none
deriving DecidableEq, Repr

/-- External world of one command step: the DATA body as ReadDotBytes
yields it (already dot-unstuffed), the bytes available to a BDAT chunk
read, the outcome of the AUTH mechanism dialogue on the connection, the
TLS handshake outcome, and the message-store result. -/
structure Env where
  dataBody : String := ""
  bdatInput : String := ""
  authResult : Option String := none
  tlsHandshakeOk : Bool := true
  storeErr : Option String := none
deriving DecidableEq, Repr

/-- Message from the server package, the fields the session fills for
Store; headers, client IP, hostname and timestamp carry no session state
and are omitted. -/
structure Message where
  From : String
  To : List String
  Content : String
  Size : Nat
  TLSUsed : Bool
deriving DecidableEq, Repr

/-- Go return value of a handler: nil, io.EOF (orderly end of session) or
a non-nil error (session aborts). -/
inductive HRes where
  | ok
  | eof
  | fatal (msg : String)
deriving DecidableEq, Repr

/-- Result of running a handler: the updated session, the lines written to
the connection in order, whether the connection was closed, the Store
calls made, and the Go return value. -/
structure Out where
  session : Session
  wire : List String := []
  closed : Bool := false
  stored : List Message := []
  res : HRes := .ok
deriving DecidableEq, Repr

/-- Sequencing mirroring the Go pattern of returning early when a write
fails or signals end of session, and continuing otherwise. -/
def Out.andThen (o : Out) (f : Session → Out) : Out :=
  if o.res = .ok then
    let o2 := f o.session
    ⟨o2.session, o.wire ++ o2.wire, o.closed || o2.closed, o.stored ++ o2.stored, o2.res⟩
  else o

/-! ## Constants from server/config.go and server/session.go -/

/-- MaxMessageSize from server/config.go: 10 * 1024 * 1024 bytes. -/
def MaxMessageSize : Nat := 10485760

/-- advertisedSizeMin from server/session.go. -/
def advertisedSizeMin : Nat := 1000

/-- advertisedSizeMax from server/session.go. -/
def advertisedSizeMax : Nat := 10000000

/-! ## Response writer (server/session.go) -/

/-- isResponse421 from server/session.go: the first line of the response,
after trimming leading spaces and tabs, either parses a leading
three-character numeric code equal to 421, or (when no code parses)
equals the canonical 421 message case-insensitively, with or without a
literal 421-and-space prefix. -/
def isResponse421 (response : String) : Bool :=
  if response = "" then false
  else
    let first := trimLeftSpaceTab (firstLineOf response)
    let byCode : Option Bool :=
      if first.length ≥ 3 then
        match go_atoi (String.mk (first.data.take 3)) with
        | some code => some (decide (code = 421))
        | none => none
      else none
    match byCode with
    | some b => b
    | none =>
        let canon := goToLower (goTrimSpace (GetErrorMessage 421))
        goEqualFold (goTrimSpace first) canon ||
        goEqualFold (goTrimSpace (goTrimPrefix first "421 ")) canon

/-- writeResponse from server/session.go.  In pipelining mode a non-421
response is queued; a 421 flushes the queue, transmits, closes the
connection and returns io.EOF; otherwise the response is transmitted
immediately, and a 421 additionally closes and returns io.EOF. -/
def writeResponse (s : Session) (response : String) : Out :=
  let is421 := isResponse421 response
  if s.pipeliningMode ∧ ¬ is421 then
    { session := { s with responseQueue := s.responseQueue ++ [response] } }
  else if s.pipeliningMode ∧ is421 then
    { session := { s with responseQueue := [] },
      wire := s.responseQueue ++ [response], closed := true, res := .eof }
  else
    { session := s, wire := [response],
      closed := is421, res := if is421 then .eof else .ok }

/-- flushResponses from server/session.go: transmit all queued responses
in order and clear the queue. -/
def flushResponses (s : Session) : Session × List String :=
  ({ s with responseQueue := [] }, s.responseQueue)

/-- breaksPipelining from server/session.go. -/
def breaksPipelining (cmdName : String) : Bool :=
  cmdName = "DATA" ∨ cmdName = "BDAT" ∨ cmdName = "AUTH" ∨
  cmdName = "STARTTLS" ∨ cmdName = "QUIT"

/-- getMaxMessageSize from server/session.go: the per-session advertised
SIZE if positive, else the global MaxMessageSize. -/
def getMaxMessageSize (s : Session) : Nat :=
  if s.advertisedSize > 0 then s.advertisedSize else MaxMessageSize

/-- formatErrorResult from server/session.go. -/
def formatErrorResult (s : Session) (e : ErrorResult) : String :=
  if s.capabilities.enhancedStatusCodes ∧ e.Enhanced ≠ "" then
    toString e.Code ++ " " ++ e.Enhanced ++ " " ++ GetErrorMessage e.Code
  else
    toString e.Code ++ " " ++ GetErrorMessage e.Code

/-! ## EHLO capability negotiation (server/session.go) -/

/-- parseCapabilityLabel from server/session.go: leftmost label before the
first dot, lowercased, split on dashes. -/
def parseCapabilityLabel (hostname : String) : List String :=
  goSplitChar '-' (goToLower (String.mk (hostname.data.takeWhile (fun c => c ≠ '.'))))

/-- hasCapability from server/session.go: some part contains the
lowercased pattern as a substring. -/
def hasCapability (parts : List String) (pattern : String) : Bool :=
  parts.any (fun part => strContains part (goToLower pattern))

/-- Match of the size regex of server/session.go at the start of the
list: a literal size followed by a nonempty digit run (greedy). -/
def trySizeAt (cs : List Char) : Option (List Char) :=
  match cs with
  | 's' :: 'i' :: 'z' :: 'e' :: rest =>
      if rest.takeWhile Char.isDigit = [] then none
      else some (rest.takeWhile Char.isDigit)
  | _ => none

/-- Leftmost match of the size regex within a part. -/
def findSizeDigits : List Char → Option (List Char)
  | [] => none
  | c :: rest =>
      match trySizeAt (c :: rest) with
      | some ds => some ds
      | none => findSizeDigits rest

/-- The clamp applied by parseAndClampSize. -/
def clampSize (v : Nat) : Nat :=
  if v < advertisedSizeMin then advertisedSizeMin
  else if v > advertisedSizeMax then advertisedSizeMax
  else v

/-- parseAndClampSize from server/session.go: the first part whose size
digits parse to a positive int64 yields the clamped value; none
otherwise (the Go (0, false) return). -/
def parseAndClampSize : List String → Option Nat
  | [] => none
  | part :: rest =>
      match findSizeDigits part.data with
      | some ds =>
          let v := digitsToNat ds
          if v > int64Max ∨ v = 0 then parseAndClampSize rest
          else some (clampSize v)
      | none => parseAndClampSize rest

/-- getAuthMechanisms from server/session.go: the last matching auth
part wins; default is the full mechanism list. -/
def getAuthMechanisms (parts : List String) : String :=
  let lastAuth := parts.foldl (fun acc part =>
    let p := goToLower part
    if strContains p "authplain" then "PLAIN"
    else if strContains p "authlogin" then "LOGIN"
    else if strContains p "authcram" then "CRAM-MD5 CRAM-SHA256"
    else if strContains p "authoauth" then "XOAUTH2"
    else acc) ""
  if lastAuth ≠ "" then lastAuth
  else "PLAIN LOGIN CRAM-MD5 CRAM-SHA256 XOAUTH2"

/-- addStandardCapabilities from server/session.go: computes the
capability flags and EHLO lines; the SIZE line shows the clamped
per-session value when one parses, else the global maximum. -/
def addStandardCapabilities (s : Session) (parts : List String) : Session × List String :=
  let authLines :=
    if ¬ hasCapability parts "noauth" then
      let mechs := getAuthMechanisms parts
      if mechs ≠ "" then ["250-AUTH " ++ mechs] else []
    else []
  let caps8 := ¬ hasCapability parts "no8bit"
  let lines8 := if caps8 then ["250-8BITMIME"] else []
  let capSize := ¬ hasCapability parts "nosize"
  let advAndSize :=
    if capSize then
      match parseAndClampSize parts with
      | some v => (v, ["250-SIZE " ++ toString v])
      | none => (s.advertisedSize, ["250-SIZE " ++ toString MaxMessageSize])
    else (s.advertisedSize, ([] : List String))
  let capPipe := ¬ hasCapability parts "nopipelining"
  let linesPipe := if capPipe then ["250-PIPELINING"] else []
  let capTLS := ¬ hasCapability parts "nostarttls" ∧ s.configHasTLS
  let linesTLS := if capTLS then ["250-STARTTLS"] else []
  let capChunk := ¬ hasCapability parts "nochunking"
  let linesChunk := if capChunk then ["250-CHUNKING"] else []
  let capUTF8 := ¬ hasCapability parts "nosmtputf8"
  let linesUTF8 := if capUTF8 then ["250-SMTPUTF8"] else []
  let capEnh := ¬ hasCapability parts "noenhancedstatuscodes"
  let linesEnh := if capEnh then ["250-ENHANCEDSTATUSCODES"] else []
  ({ s with
      advertisedSize := advAndSize.1,
      capabilities :=
        { size := capSize, pipelining := capPipe, enhancedStatusCodes := capEnh,
          smtputf8 := capUTF8, chunking := capChunk, starttls := capTLS,
          eightBitMIME := caps8 } },
   authLines ++ lines8 ++ advAndSize.2 ++ linesPipe ++ linesTLS ++
   linesChunk ++ linesUTF8 ++ linesEnh)

/-- buildEhloResponse from server/session.go.  The CapabilityParser hook
and SMTPExtensions are modelled as absent: none are registered in the
default configuration. -/
def buildEhloResponse (s : Session) (hostname : String) : Session × List String :=
  let parts := parseCapabilityLabel hostname
  let s1AndLines := addStandardCapabilities s parts
  (s1AndLines.1, ["250-badsmtp.test"] ++ s1AndLines.2 ++ ["250 OK"])

/-! ## Command handlers (server/session.go) -/

/-- handleEhlo from server/session.go: reject on a reject or noehl part,
else build and send the multi-line capability response (a single
writeResponse call of CRLF-joined lines). -/
def handleEhlo (s : Session) (hostname : String) : Out :=
  let h := goToLower hostname
  let parts := parseCapabilityLabel h
  if hasCapability parts "reject" || hasCapability parts "noehl" then
    writeResponse s "502 Command not implemented"
  else
    let built := buildEhloResponse s h
    writeResponse built.1 (String.intercalate "\r\n" built.2)

/-- handleHelo from server/session.go: serves both HELO and EHLO; a
hostname error pattern fires before the state advances. -/
def handleHelo (s : Session) (cmd : Command) : Out :=
  if s.state ≠ .helo then writeResponse s "503 Bad sequence of commands"
  else
    let hostname := cmd.args.headD ""
    let s0 := { s with heloName := hostname }
    match ExtractHeloError hostname with
    | some e => writeResponse s0 (formatErrorResult s0 e)
    | none =>
        let s1 := { s0 with state := .mail }
        if cmd.name = "EHLO" then handleEhlo s1 hostname
        else writeResponse s1 "250 badsmtp.test"

/-- handleAuth from server/session.go.  The mechanism dialogue on the
connection is modelled by the environment authResult; the default
authenticator rejects usernames containing badauth and returns active
users otherwise (server/config.go DefaultAuthenticator). -/
def handleAuth (s : Session) (env : Env) (cmd : Command) : Out :=
  if s.state ≠ .mail ∧ s.state ≠ .auth then
    writeResponse s "503 Bad sequence of commands"
  else
    match s.authErrorResult with
    | some e => writeResponse s (formatErrorResult s e)
    | none =>
        let mech := goToUpper (cmd.args.headD "")
        if ¬ (mech = "PLAIN" ∨ mech = "LOGIN" ∨ mech = "CRAM-MD5" ∨
              mech = "CRAM-SHA256" ∨ mech = "XOAUTH2") then
          writeResponse s "504 Authentication mechanism not supported"
        else
          match env.authResult with
          | none => writeResponse s "535 Authentication failed"
          | some username =>
              if strContains username "badauth" then
                writeResponse s "535 Authentication failed"
              else
                writeResponse { s with authenticated := true, state := .mail }
                  "235 Authentication successful"

/-- handleMail from server/session.go: a mail-verb pattern rejects the
command before any session field changes; otherwise all six deferred
error slots are repopulated from the sender, the sender is recorded and
the state advances to RCPT. -/
def handleMail (s : Session) (cmd : Command) : Out :=
  if s.state ≠ .mail then writeResponse s "503 Bad sequence of commands"
  else
    let raw := ExtractMailboxFromArg (cmd.args.headD "")
    if raw = "" then writeResponse s "501 Syntax error in parameters"
    else if ¬ IsValidMailbox raw s.capabilities.smtputf8 then
      writeResponse s "501 Syntax error in parameters"
    else
      let fromAddr := NormaliseMailbox raw
      match ExtractMailFromError fromAddr with
      | some e => writeResponse s (formatErrorResult s e)
      | none =>
          writeResponse
            { s with
                dataErrorResult := ExtractDataError fromAddr,
                rsetErrorResult := ExtractRsetError fromAddr,
                quitErrorResult := ExtractQuitError fromAddr,
                startTLSErrorResult := ExtractStartTLSError fromAddr,
                noopErrorResult := ExtractNoopError fromAddr,
                authErrorResult := ExtractAuthError fromAddr,
                mailFrom := fromAddr,
                state := .rcpt }
            "250 OK"

/-- handleRcpt from server/session.go: an rcpt-verb pattern on the
recipient fires instead of acceptance; an accepted recipient is appended
and the state stays RCPT. -/
def handleRcpt (s : Session) (cmd : Command) : Out :=
  if s.state ≠ .rcpt then writeResponse s "503 Bad sequence of commands"
  else
    let raw := ExtractMailboxFromArg (cmd.args.headD "")
    if raw = "" then writeResponse s "501 Syntax error in parameters"
    else if ¬ IsValidMailbox raw s.capabilities.smtputf8 then
      writeResponse s "501 Syntax error in parameters"
    else
      let toAddr := NormaliseMailbox raw
      match ExtractRcptToError toAddr with
      | some e => writeResponse s (formatErrorResult s e)
      | none => writeResponse { s with rcptTo := s.rcptTo ++ [toAddr] } "250 OK"

/-- Split a character list at its first at-sign (Go strings.SplitN with
limit 2). -/
def splitAtFirstAt (cs : List Char) : Option (List Char × List Char) :=
  let pre := cs.takeWhile (fun c => c ≠ '@')
  let rest := cs.dropWhile (fun c => c ≠ '@')
  match rest with
  | '@' :: suf => some (pre, suf)
  | _ => none

/-- The VRFY reply chosen from the local-part prefix of the normalised
address; the ambiguous message differs between the lenient and the main
path in the source, selected by the flag. -/
def vrfyReplyFor (addr : String) (lenient : Bool) : String :=
  let lcl :=
    match splitAtFirstAt addr.data with
    | some (pre, _) => goToLower (String.mk pre)
    | none => goToLower addr
  if goHasPrefix lcl "exists" then "250 " ++ addr ++ " User exists"
  else if goHasPrefix lcl "unknown" then "551 User not local; please try forward path"
  else if goHasPrefix lcl "ambiguous" then
    if lenient then "553 User ambiguous"
    else "553 Requested action not taken: mailbox name not allowed"
  else "550 Requested action not taken: mailbox unavailable"

/-- handleVrfy from server/session.go: state is never changed; the reply
is chosen by the local-part prefix, with a lenient acceptance path when
SMTPUTF8 is active and strict validation fails but the domain
validates. -/
def handleVrfy (s : Session) (cmd : Command) : Out :=
  let target := String.intercalate " " cmd.args
  let raw := ExtractMailbox target
  if raw = "" ∨ ¬ strContains raw "@" then
    writeResponse s "501 Syntax error in parameters"
  else if ¬ IsValidMailbox raw s.capabilities.smtputf8 then
    if s.capabilities.smtputf8 then
      match splitAtFirstAt raw.data with
      | some (_, domain) =>
          if ValidateDomain (String.mk domain) then
            writeResponse s (vrfyReplyFor (NormaliseMailbox raw) true)
          else writeResponse s "501 Syntax error in parameters"
      | none => writeResponse s "501 Syntax error in parameters"
    else writeResponse s "501 Syntax error in parameters"
  else
    writeResponse s (vrfyReplyFor (NormaliseMailbox raw) false)

/-- storeMessage from server/session.go: the Message handed to the
store.  The Go code also parses headers with net/mail and, when a body
parses, reports the body length as Size; that adjustment and the
metadata fields are not modelled (no claim depends on them), so Size is
the content length. -/
def storeMessage (s : Session) (env : Env) (content : String) : Message × Option String :=
  ({ From := s.mailFrom, To := s.rcptTo, Content := content,
     Size := content.utf8ByteSize, TLSUsed := s.tlsActive }, env.storeErr)

/-- handleStorageError from server/session.go: maps store error text to
a 550, 452 or 450 reply. -/
def handleStorageError (s : Session) (errText : String) : Out :=
  if strContains errText "not active" then
    writeResponse s "550 Requested action not taken: mailbox unavailable"
  else if strContains errText "quota" then
    writeResponse s "452 Requested action not taken: insufficient system storage"
  else
    writeResponse s "450 Requested action not taken: mailbox temporarily unavailable"

/-- resetSessionState from server/session.go: back to MAIL state, clear
the transaction and every deferred error slot (bdatBuffer is cleared
separately by its caller). -/
def resetSessionState (s : Session) : Session :=
  { s with
      state := .mail, rcptTo := [], mailFrom := "",
      dataErrorResult := none, rsetErrorResult := none, quitErrorResult := none,
      startTLSErrorResult := none, noopErrorResult := none, authErrorResult := none }

/-- handleData from server/session.go: a deferred DATA error fires before
the 354; the body is read dot-unstuffed; a body over the effective limit
makes readMessageContent return an error, which the handler propagates
(no reply is written); otherwise the message is stored and acknowledged
or the storage error is mapped. -/
def handleData (s : Session) (env : Env) : Out :=
  if s.state ≠ .rcpt then writeResponse s "503 Bad sequence of commands"
  else
    match s.dataErrorResult with
    | some e => writeResponse s (formatErrorResult s e)
    | none =>
        let s1 := { s with state := .data }
        (writeResponse s1 "354 End data with <CR><LF>.<CR><LF>").andThen (fun s2 =>
          let totalSize := env.dataBody.utf8ByteSize
          let maxSize := getMaxMessageSize s2
          if totalSize > maxSize then
            { session := s2,
              res := .fatal ("message size exceeds limit of " ++ toString maxSize ++ " bytes") }
          else
            let stored := storeMessage s2 env env.dataBody
            match stored.2 with
            | some errText =>
                let o := handleStorageError s2 errText
                { o with stored := [stored.1] }
            | none =>
                let o := writeResponse (resetSessionState s2)
                  "250 OK Message accepted for delivery"
                { o with stored := [stored.1] })

/-- handleRset from server/session.go: a deferred RSET error fires
without resetting; otherwise state returns to MAIL and the transaction
fields (only) are cleared. -/
def handleRset (s : Session) : Out :=
  match s.rsetErrorResult with
  | some e => writeResponse s (formatErrorResult s e)
  | none =>
      writeResponse { s with state := .mail, mailFrom := "", rcptTo := [] } "250 OK"

/-- handleNoop from server/session.go. -/
def handleNoop (s : Session) : Out :=
  match s.noopErrorResult with
  | some e => writeResponse s (formatErrorResult s e)
  | none => writeResponse s "250 OK"

/-- handleStartTLS from server/session.go: a deferred STARTTLS error
fires first, then the already-started check; on acceptance the 220 is
sent and the handshake performed (certificate provisioning is modelled
as succeeding); on success the state resets to HELO with the TLS flag
set and nothing else changed. -/
def handleStartTLS (s : Session) (env : Env) : Out :=
  match s.startTLSErrorResult with
  | some e => writeResponse s (formatErrorResult s e)
  | none =>
      if s.tlsActive then writeResponse s "554 TLS already started"
      else
        (writeResponse s "220 Ready to start TLS").andThen (fun s1 =>
          if ¬ env.tlsHandshakeOk then
            { session := s1, res := .fatal "TLS handshake failed" }
          else
            { session := { s1 with tlsActive := true, state := .helo } })

/-- handleQuit from server/session.go: a deferred QUIT error replaces the
221; either way the state becomes QUIT and io.EOF ends the session. -/
def handleQuit (s : Session) : Out :=
  match s.quitErrorResult with
  | some e =>
      (writeResponse s (formatErrorResult s e)).andThen (fun s1 =>
        { session := { s1 with state := .quit }, res := .eof })
  | none =>
      (writeResponse s "221 Bye").andThen (fun s1 =>
        { session := { s1 with state := .quit }, res := .eof })

/-- Continuation of handleBdat after the size argument parsed: size
enforcement against the effective limit, the chunk read, and the final
or intermediate acknowledgement. -/
def bdatRest (s : Session) (env : Env) (n : Nat) (last : Bool) : Out :=
  let totalSoFar := s.bdatBuffer.utf8ByteSize
  let maxSize := getMaxMessageSize s
  if totalSoFar + n > maxSize then
    writeResponse s
      ("552 Message size exceeds fixed maximum of " ++ toString maxSize ++ " bytes")
  else if env.bdatInput.length < n then
    { session := s, res := .fatal "unexpected EOF" }
  else
    let chunk := String.mk (env.bdatInput.data.take n)
    let s1 := { s with bdatBuffer := s.bdatBuffer ++ chunk }
    if last then
      let stored := storeMessage s1 env s1.bdatBuffer
      match stored.2 with
      | some errText =>
          let o := handleStorageError s1 errText
          { o with stored := [stored.1] }
      | none =>
          let s2 := resetSessionState { s1 with bdatBuffer := "" }
          let o := writeResponse s2 "250 OK Message accepted for delivery"
          { o with stored := [stored.1] }
    else
      writeResponse { s1 with state := .bdat } "250 OK"

/-- handleBdat from server/session.go: BDAT n with optional LAST; a
deferred DATA error fires only on the final chunk. -/
def handleBdat (s : Session) (env : Env) (cmd : Command) : Out :=
  if ¬ (s.state = .rcpt ∨ s.state = .bdat) then
    writeResponse s "503 Bad sequence of commands"
  else
    match go_atoi (cmd.args.headD "") with
    | none => writeResponse s "501 Syntax error in parameters"
    | some n =>
        if n < 0 then writeResponse s "501 Syntax error in parameters"
        else
          let last := cmd.args.length > 1 ∧ goEqualFold (cmd.args.getD 1 "") "LAST"
          match s.dataErrorResult with
          | some e =>
              if last then writeResponse s (formatErrorResult s e)
              else bdatRest s env n.toNat last
          | none => bdatRest s env n.toNat last

/-! ## Command dispatch (server/session.go) -/

/-- Outcome of parseAndLogCommand: either a response was already written
(the session continues) or a validated command is handed to dispatch. -/
inductive ParseOutcome where
  | response (o : Out)
  | cmd (s : Session) (c : Command)
deriving Repr

/-- parseAndLogCommand from server/session.go with no SMTPExtensions
registered: parse failure and unknown verbs get 500, a wrong-state
command gets the detailed 503, bad argument shapes get the validator
text. -/
def parseAndLogCommand (s : Session) (line : String) : ParseOutcome :=
  match ParseCommand line with
  | none => .response (writeResponse s "500 Command not recognised")
  | some c =>
      if ¬ c.IsValid then
        .response (writeResponse s "500 Command not recognised")
      else if ¬ c.IsAllowedInState s.state then
        .response (writeResponse s
          ("503 Bad sequence - " ++ c.name ++ " not allowed in " ++
            stateString s.state ++ " state"))
      else
        match c.ValidateArgs with
        | some errResp => .response (writeResponse s errResp)
        | none => .cmd s c

/-- The commandHandlers dispatch map from server/session.go. -/
def dispatch (s : Session) (env : Env) (c : Command) : Out :=
  if c.name = "HELO" ∨ c.name = "EHLO" then handleHelo s c
  else if c.name = "AUTH" then handleAuth s env c
  else if c.name = "MAIL" then handleMail s c
  else if c.name = "RCPT" then handleRcpt s c
  else if c.name = "DATA" then handleData s env
  else if c.name = "BDAT" then handleBdat s env c
  else if c.name = "RSET" then handleRset s
  else if c.name = "NOOP" then handleNoop s
  else if c.name = "STARTTLS" then handleStartTLS s env
  else if c.name = "QUIT" then handleQuit s
  else if c.name = "VRFY" then handleVrfy s c
  else writeResponse s "500 Command not recognised"

/-- The tail of handleCommand from server/session.go: run the handler,
then flush queued responses when the handler erred or the command breaks
pipelining (flushAndReturn). -/
def handleCommandDispatch (s : Session) (env : Env) (c : Command) : Out :=
  let o := dispatch s env c
  if o.res ≠ .ok ∨ breaksPipelining c.name then
    let flushed := flushResponses o.session
    { o with session := flushed.1, wire := o.wire ++ flushed.2 }
  else o

/-- handleCommand from server/session.go: parse and validate; a
pipelining-breaking command first flushes the queue and leaves
pipelining mode, then the handler runs. -/
def handleCommand (s : Session) (env : Env) (line : String) : Out :=
  match parseAndLogCommand s line with
  | .response o => o
  | .cmd s0 c =>
      if breaksPipelining c.name then
        let flushed := flushResponses s0
        let o := handleCommandDispatch { flushed.1 with pipeliningMode := false } env c
        { o with wire := flushed.2 ++ o.wire }
      else handleCommandDispatch s0 env c

/-! ## Helper lemmas -/

theorem takeWhile_all_eq_self {p : Char → Bool} :
    ∀ {l : List Char}, l.all p = true → l.takeWhile p = l := by
  intro l h
  induction l with
  | nil => rfl
  | cons c t ih =>
      simp only [List.all_cons, Bool.and_eq_true] at h
      simp [List.takeWhile_cons, h.1, ih h.2]

theorem writeResponse_state (s : Session) (r : String) :
    (writeResponse s r).session.state = s.state := by
  unfold writeResponse
  dsimp only
  split
  · rfl
  split <;> rfl

theorem writeResponse_heloName (s : Session) (r : String) :
    (writeResponse s r).session.heloName = s.heloName := by
  unfold writeResponse
  dsimp only
  split
  · rfl
  split <;> rfl

theorem writeResponse_mailFrom (s : Session) (r : String) :
    (writeResponse s r).session.mailFrom = s.mailFrom := by
  unfold writeResponse
  dsimp only
  split
  · rfl
  split <;> rfl

theorem writeResponse_rcptTo (s : Session) (r : String) :
    (writeResponse s r).session.rcptTo = s.rcptTo := by
  unfold writeResponse
  dsimp only
  split
  · rfl
  split <;> rfl

theorem writeResponse_authenticated (s : Session) (r : String) :
    (writeResponse s r).session.authenticated = s.authenticated := by
  unfold writeResponse
  dsimp only
  split
  · rfl
  split <;> rfl

theorem writeResponse_tlsActive (s : Session) (r : String) :
    (writeResponse s r).session.tlsActive = s.tlsActive := by
  unfold writeResponse
  dsimp only
  split
  · rfl
  split <;> rfl

theorem writeResponse_capabilities (s : Session) (r : String) :
    (writeResponse s r).session.capabilities = s.capabilities := by
  unfold writeResponse
  dsimp only
  split
  · rfl
  split <;> rfl

theorem writeResponse_advertisedSize (s : Session) (r : String) :
    (writeResponse s r).session.advertisedSize = s.advertisedSize := by
  unfold writeResponse
  dsimp only
  split
  · rfl
  split <;> rfl

theorem writeResponse_bdatBuffer (s : Session) (r : String) :
    (writeResponse s r).session.bdatBuffer = s.bdatBuffer := by
  unfold writeResponse
  dsimp only
  split
  · rfl
  split <;> rfl

theorem writeResponse_pipeliningMode (s : Session) (r : String) :
    (writeResponse s r).session.pipeliningMode = s.pipeliningMode := by
  unfold writeResponse
  dsimp only
  split
  · rfl
  split <;> rfl

theorem writeResponse_dataErrorResult (s : Session) (r : String) :
    (writeResponse s r).session.dataErrorResult = s.dataErrorResult := by
  unfold writeResponse
  dsimp only
  split
  · rfl
  split <;> rfl

theorem writeResponse_rsetErrorResult (s : Session) (r : String) :
    (writeResponse s r).session.rsetErrorResult = s.rsetErrorResult := by
  unfold writeResponse
  dsimp only
  split
  · rfl
  split <;> rfl

theorem writeResponse_quitErrorResult (s : Session) (r : String) :
    (writeResponse s r).session.quitErrorResult = s.quitErrorResult := by
  unfold writeResponse
  dsimp only
  split
  · rfl
  split <;> rfl

theorem writeResponse_startTLSErrorResult (s : Session) (r : String) :
    (writeResponse s r).session.startTLSErrorResult = s.startTLSErrorResult := by
  unfold writeResponse
  dsimp only
  split
  · rfl
  split <;> rfl

theorem writeResponse_noopErrorResult (s : Session) (r : String) :
    (writeResponse s r).session.noopErrorResult = s.noopErrorResult := by
  unfold writeResponse
  dsimp only
  split
  · rfl
  split <;> rfl

theorem writeResponse_authErrorResult (s : Session) (r : String) :
    (writeResponse s r).session.authErrorResult = s.authErrorResult := by
  unfold writeResponse
  dsimp only
  split
  · rfl
  split <;> rfl

theorem writeResponse_wire_of_not_pipelining (s : Session) (r : String)
    (h : s.pipeliningMode = false) : (writeResponse s r).wire = [r] := by
  unfold writeResponse
  simp [h]

theorem writeResponse_session_of_not_pipelining (s : Session) (r : String)
    (h : s.pipeliningMode = false) : (writeResponse s r).session = s := by
  unfold writeResponse
  simp [h]

theorem writeResponse_stored (s : Session) (r : String) :
    (writeResponse s r).stored = [] := by
  unfold writeResponse
  dsimp only
  split
  · rfl
  split <;> rfl

theorem handleStorageError_pipeliningMode (s : Session) (e : String) :
    (handleStorageError s e).session.pipeliningMode = s.pipeliningMode := by
  unfold handleStorageError
  repeat' split
  all_goals simp [writeResponse_pipeliningMode]

theorem addStandardCapabilities_pipeliningMode (s : Session) (parts : List String) :
    (addStandardCapabilities s parts).1.pipeliningMode = s.pipeliningMode := rfl

theorem handleHelo_pipeliningMode (s : Session) (c : Command) :
    (handleHelo s c).session.pipeliningMode = s.pipeliningMode := by
  unfold handleHelo handleEhlo buildEhloResponse
  dsimp only
  repeat' split
  all_goals simp [writeResponse_pipeliningMode, addStandardCapabilities_pipeliningMode]

theorem handleAuth_pipeliningMode (s : Session) (env : Env) (c : Command) :
    (handleAuth s env c).session.pipeliningMode = s.pipeliningMode := by
  unfold handleAuth
  dsimp only
  repeat' split
  all_goals simp [writeResponse_pipeliningMode]

theorem handleMail_pipeliningMode (s : Session) (c : Command) :
    (handleMail s c).session.pipeliningMode = s.pipeliningMode := by
  unfold handleMail
  dsimp only
  repeat' split
  all_goals simp [writeResponse_pipeliningMode]

theorem handleRcpt_pipeliningMode (s : Session) (c : Command) :
    (handleRcpt s c).session.pipeliningMode = s.pipeliningMode := by
  unfold handleRcpt
  dsimp only
  repeat' split
  all_goals simp [writeResponse_pipeliningMode]

theorem handleVrfy_pipeliningMode (s : Session) (c : Command) :
    (handleVrfy s c).session.pipeliningMode = s.pipeliningMode := by
  unfold handleVrfy
  dsimp only
  repeat' split
  all_goals simp [writeResponse_pipeliningMode]

theorem handleData_pipeliningMode (s : Session) (env : Env) :
    (handleData s env).session.pipeliningMode = s.pipeliningMode := by
  unfold handleData Out.andThen
  dsimp only
  repeat' split
  all_goals
    simp [writeResponse_pipeliningMode, handleStorageError_pipeliningMode,
      resetSessionState]

theorem bdatRest_pipeliningMode (s : Session) (env : Env) (n : Nat) (last : Bool) :
    (bdatRest s env n last).session.pipeliningMode = s.pipeliningMode := by
  unfold bdatRest
  dsimp only
  repeat' split
  all_goals
    simp [writeResponse_pipeliningMode, handleStorageError_pipeliningMode,
      resetSessionState]

theorem handleBdat_pipeliningMode (s : Session) (env : Env) (c : Command) :
    (handleBdat s env c).session.pipeliningMode = s.pipeliningMode := by
  unfold handleBdat
  dsimp only
  repeat' split
  all_goals simp [writeResponse_pipeliningMode, bdatRest_pipeliningMode]

theorem handleRset_pipeliningMode (s : Session) :
    (handleRset s).session.pipeliningMode = s.pipeliningMode := by
  unfold handleRset
  repeat' split
  all_goals simp [writeResponse_pipeliningMode]

theorem handleNoop_pipeliningMode (s : Session) :
    (handleNoop s).session.pipeliningMode = s.pipeliningMode := by
  unfold handleNoop
  repeat' split
  all_goals simp [writeResponse_pipeliningMode]

theorem handleStartTLS_pipeliningMode (s : Session) (env : Env) :
    (handleStartTLS s env).session.pipeliningMode = s.pipeliningMode := by
  unfold handleStartTLS Out.andThen
  dsimp only
  repeat' split
  all_goals simp [writeResponse_pipeliningMode]

theorem handleQuit_pipeliningMode (s : Session) :
    (handleQuit s).session.pipeliningMode = s.pipeliningMode := by
  unfold handleQuit Out.andThen
  dsimp only
  repeat' split
  all_goals simp [writeResponse_pipeliningMode]

set_option maxHeartbeats 1600000 in
theorem dispatch_pipeliningMode (s : Session) (env : Env) (c : Command) :
    (dispatch s env c).session.pipeliningMode = s.pipeliningMode := by
  unfold dispatch
  split
  · exact handleHelo_pipeliningMode ..
  split
  · exact handleAuth_pipeliningMode ..
  split
  · exact handleMail_pipeliningMode ..
  split
  · exact handleRcpt_pipeliningMode ..
  split
  · exact handleData_pipeliningMode ..
  split
  · exact handleBdat_pipeliningMode ..
  split
  · exact handleRset_pipeliningMode ..
  split
  · exact handleNoop_pipeliningMode ..
  split
  · exact handleStartTLS_pipeliningMode ..
  split
  · exact handleQuit_pipeliningMode ..
  split
  · exact handleVrfy_pipeliningMode ..
  · exact writeResponse_pipeliningMode ..

theorem handleCommandDispatch_pipeliningMode (s : Session) (env : Env) (c : Command) :
    (handleCommandDispatch s env c).session.pipeliningMode = s.pipeliningMode := by
  unfold handleCommandDispatch
  dsimp only
  split
  · simp [flushResponses, dispatch_pipeliningMode]
  · exact dispatch_pipeliningMode ..

theorem writeResponse_eq_of_not_pipelining (s : Session) (r : String)
    (h : s.pipeliningMode = false) :
    writeResponse s r =
      { session := s, wire := [r], closed := isResponse421 r, stored := [],
        res := if isResponse421 r then .eof else .ok } := by
  unfold writeResponse
  dsimp only
  simp [h]

/-- All six deferred error slots empty, as a decidable predicate. -/
def noPendingErrors (s : Session) : Bool :=
  s.dataErrorResult = none ∧ s.rsetErrorResult = none ∧ s.quitErrorResult = none ∧
  s.startTLSErrorResult = none ∧ s.noopErrorResult = none ∧ s.authErrorResult = none

/-! ## Claim theorems -/

/-- C8: for every synthetic ErrorResult, when ENHANCEDSTATUSCODES is
enabled and the result carries an enhanced triple the formatted response
is the code, the triple and the canonical message; otherwise the code
and the canonical message; the canonical message comes from the fixed
mapping and every code outside it resolves to Unknown error. -/
theorem C8_formatErrorResult_spec :
    (∀ (s : Session) (e : ErrorResult),
      s.capabilities.enhancedStatusCodes = true → e.Enhanced ≠ "" →
      formatErrorResult s e =
        toString e.Code ++ " " ++ e.Enhanced ++ " " ++ GetErrorMessage e.Code)
    ∧ (∀ (s : Session) (e : ErrorResult),
      s.capabilities.enhancedStatusCodes = false ∨ e.Enhanced = "" →
      formatErrorResult s e = toString e.Code ++ " " ++ GetErrorMessage e.Code)
    ∧ (∀ code : Nat, ¬ code ∈ knownErrorCodes → GetErrorMessage code = "Unknown error") := by
  refine ⟨?_, ?_, ?_⟩
  · intro s e h1 h2
    simp [formatErrorResult, h1, h2]
  · intro s e h
    rcases h with h | h
    · simp [formatErrorResult, h]
    · simp [formatErrorResult, h]
  · intro code h
    simp only [knownErrorCodes, List.mem_cons, List.not_mem_nil, or_false, not_or] at h
    obtain ⟨h1, h2, h3, h4, h5, h6, h7, h8, h9, h10, h11, h12, h13, h14, h15, h16, h17⟩ := h
    simp [GetErrorMessage, h1, h2, h3, h4, h5, h6, h7, h8, h9, h10, h11, h12, h13,
      h14, h15, h16, h17]

/-- Witness for C8 at a concrete enhanced result and the unknown code
600. -/
theorem C8_witness :
    formatErrorResult { capabilities := { enhancedStatusCodes := true } }
        ⟨550, "5.1.1", ""⟩ =
      "550 5.1.1 Requested action not taken: mailbox unavailable"
    ∧ GetErrorMessage 600 = "Unknown error" := by
  constructor
  · rw [C8_formatErrorResult_spec.1 { capabilities := { enhancedStatusCodes := true } }
      ⟨550, "5.1.1", ""⟩ rfl (by decide)]
    rfl
  · exact C8_formatErrorResult_spec.2.2 600 (by decide)

/-- C9: a size part of the EHLO capability label advertises the decimal
value clamped to the interval from 1000 to 10000000; clampSize is that
clamp, and the three boundary instances of the claim evaluate as
stated. -/
theorem C9_size_clamp :
    (∀ ds : List Char, ds ≠ [] → ds.all Char.isDigit = true →
      digitsToNat ds ≠ 0 → digitsToNat ds ≤ int64Max →
      parseAndClampSize [String.mk ('s' :: 'i' :: 'z' :: 'e' :: ds)] =
        some (clampSize (digitsToNat ds)))
    ∧ (∀ v : Nat, clampSize v = max advertisedSizeMin (min v advertisedSizeMax))
    ∧ parseAndClampSize ["size1"] = some 1000
    ∧ parseAndClampSize ["size20000000"] = some 10000000
    ∧ parseAndClampSize ["size50000"] = some 50000 := by
  refine ⟨?_, ?_, by decide, by decide, by decide⟩
  · intro ds hne hall hnz hle
    have htw : ds.takeWhile Char.isDigit = ds := takeWhile_all_eq_self hall
    simp only [parseAndClampSize, findSizeDigits, trySizeAt, htw]
    rw [if_neg hne]
    simp only
    rw [if_neg]
    push_neg
    exact ⟨by omega, hnz⟩
  · intro v
    simp only [clampSize, advertisedSizeMin, advertisedSizeMax]
    split_ifs <;> omega

/-- Witness for C9 applying the general clamp statement at the digit run
700 (value 700, clamped up to 1000). -/
theorem C9_witness :
    parseAndClampSize [String.mk ('s' :: 'i' :: 'z' :: 'e' :: ['7', '0', '0'])] =
      some (clampSize (digitsToNat ['7', '0', '0'])) :=
  C9_size_clamp.1 ['7', '0', '0'] (by decide) (by decide) (by decide) (by decide)

/-- C2: for every session whose queue respects the pipelining invariant
and every response whose numeric code is 421 (its trimmed first line
starts with the three digits 421), writeResponse transmits the queued
responses first and the 421 line last, clears the queue, closes the
connection and returns io.EOF, which ends the command loop. -/
theorem C2_421_last_line (s : Session) (r : String)
    (hinv : s.pipeliningMode = false → s.responseQueue = [])
    (hcode : (trimLeftSpaceTab (firstLineOf r)).data.take 3 = ['4', '2', '1']) :
    (writeResponse s r).wire = s.responseQueue ++ [r] ∧
    (writeResponse s r).session.responseQueue = [] ∧
    (writeResponse s r).closed = true ∧
    (writeResponse s r).res = .eof := by
  have hr : r ≠ "" := by
    intro h
    rw [h] at hcode
    exact absurd hcode (by decide)
  have hlen : 3 ≤ (trimLeftSpaceTab (firstLineOf r)).length := by
    have hcong := congrArg List.length hcode
    simp only [List.length_take, List.length_cons, List.length_nil] at hcong
    have : (trimLeftSpaceTab (firstLineOf r)).length =
        (trimLeftSpaceTab (firstLineOf r)).data.length := rfl
    omega
  have hatoi : go_atoi (String.mk ((trimLeftSpaceTab (firstLineOf r)).data.take 3)) =
      some 421 := by
    rw [hcode]
    decide
  have h421 : isResponse421 r = true := by
    unfold isResponse421
    rw [if_neg hr]
    dsimp only
    rw [if_pos hlen, hatoi]
    rfl
  cases hb : s.pipeliningMode with
  | true =>
      unfold writeResponse
      dsimp only
      rw [h421]
      simp [hb]
  | false =>
      unfold writeResponse
      dsimp only
      rw [h421]
      simp [hb, hinv hb]

/-- Concrete pipelined session for the C2 witness. -/
def sC2wit : Session :=
  { state := SState.mail, pipeliningMode := true, responseQueue := ["250 OK"] }

/-- Witness for C2 in pipelining mode with one queued reply and the
canonical 421 line. -/
theorem C2_witness :
    (writeResponse sC2wit
      "421 Service not available, closing transmission channel").wire =
      ["250 OK", "421 Service not available, closing transmission channel"]
    ∧ (writeResponse sC2wit
      "421 Service not available, closing transmission channel").res = .eof := by
  have h := C2_421_last_line sC2wit
    "421 Service not available, closing transmission channel"
    (by intro hx; exact absurd hx (by decide)) (by decide)
  exact ⟨by rw [h.1]; rfl, h.2.2.2⟩

/-- C10: a recipient matching the rcpt error pattern gets the synthetic
error reply and is not appended to rcptTo, the state staying RCPT; an
accepted recipient gets 250 OK and is appended; and every message handed
to the store carries exactly the current rcptTo as its To list. -/
theorem C10_rcpt_accept_exactly :
    (∀ (s : Session) (arg : String) (e : ErrorResult),
      s.state = .rcpt → s.pipeliningMode = false →
      ExtractMailboxFromArg arg ≠ "" →
      IsValidMailbox (ExtractMailboxFromArg arg) s.capabilities.smtputf8 = true →
      ExtractRcptToError (NormaliseMailbox (ExtractMailboxFromArg arg)) = some e →
      (handleRcpt s ⟨"RCPT", [arg]⟩).wire = [formatErrorResult s e] ∧
      (handleRcpt s ⟨"RCPT", [arg]⟩).session.rcptTo = s.rcptTo ∧
      (handleRcpt s ⟨"RCPT", [arg]⟩).session.state = s.state)
    ∧ (∀ (s : Session) (arg : String),
      s.state = .rcpt → s.pipeliningMode = false →
      ExtractMailboxFromArg arg ≠ "" →
      IsValidMailbox (ExtractMailboxFromArg arg) s.capabilities.smtputf8 = true →
      ExtractRcptToError (NormaliseMailbox (ExtractMailboxFromArg arg)) = none →
      (handleRcpt s ⟨"RCPT", [arg]⟩).wire = ["250 OK"] ∧
      (handleRcpt s ⟨"RCPT", [arg]⟩).session.rcptTo =
        s.rcptTo ++ [NormaliseMailbox (ExtractMailboxFromArg arg)] ∧
      (handleRcpt s ⟨"RCPT", [arg]⟩).session.state = s.state)
    ∧ (∀ (s : Session) (env : Env) (m : Message),
      m ∈ (handleData s env).stored → m.To = s.rcptTo) := by
  refine ⟨?_, ?_, ?_⟩
  · intro s arg e h1 h2 h3 h4 h5
    unfold handleRcpt
    dsimp only [List.headD_cons]
    rw [h1, if_neg (fun h => h rfl), if_neg h3, h4,
      if_neg (fun h => h rfl), h5]
    refine ⟨writeResponse_wire_of_not_pipelining _ _ h2, ?_, ?_⟩
    · rw [writeResponse_session_of_not_pipelining _ _ h2]
    · rw [writeResponse_session_of_not_pipelining _ _ h2, h1]
  · intro s arg h1 h2 h3 h4 h5
    unfold handleRcpt
    dsimp only [List.headD_cons]
    rw [h1, if_neg (fun h => h rfl), if_neg h3, h4,
      if_neg (fun h => h rfl), h5]
    dsimp only
    refine ⟨?_, ?_, ?_⟩
    · rw [writeResponse_wire_of_not_pipelining _ _ (by simpa using h2)]
    · rw [writeResponse_session_of_not_pipelining _ _ (by simpa using h2)]
    · rw [writeResponse_session_of_not_pipelining _ _ (by simpa using h2)]
  · intro s env m hm
    unfold handleData Out.andThen storeMessage at hm
    dsimp only at hm
    repeat' split at hm
    all_goals
      simp only [writeResponse_stored, List.append_nil, List.nil_append,
        List.mem_singleton, List.not_mem_nil] at hm
    all_goals subst hm
    all_goals dsimp only
    all_goals rw [writeResponse_rcptTo]

/-- Concrete mid-transaction session for the C10 witness. -/
def sC10wit : Session := { state := .rcpt, rcptTo := ["ok@y"], mailFrom := "a@x" }

/-- Witness for C10: a rejected recipient leaves rcptTo unchanged, an
accepted recipient is appended, and the stored message carries the
session recipients. -/
theorem C10_witness :
    (handleRcpt sC10wit ⟨"RCPT", ["TO:<rcpt550@y>"]⟩).wire =
      [formatErrorResult sC10wit
        ⟨550, "", "550 Requested action not taken: mailbox unavailable"⟩]
    ∧ (handleRcpt sC10wit ⟨"RCPT", ["TO:<rcpt550@y>"]⟩).session.rcptTo = sC10wit.rcptTo
    ∧ (handleRcpt sC10wit ⟨"RCPT", ["TO:<c@z>"]⟩).session.rcptTo =
        sC10wit.rcptTo ++ [NormaliseMailbox (ExtractMailboxFromArg "TO:<c@z>")]
    ∧ (Message.mk "a@x" ["ok@y"] "hi" 2 false).To = sC10wit.rcptTo := by
  have he := C10_rcpt_accept_exactly.1 sC10wit "TO:<rcpt550@y>"
    ⟨550, "", "550 Requested action not taken: mailbox unavailable"⟩
    rfl rfl (by decide) (by decide) (by decide)
  have ha := C10_rcpt_accept_exactly.2.1 sC10wit "TO:<c@z>"
    rfl rfl (by decide) (by decide) (by decide)
  have hs := C10_rcpt_accept_exactly.2.2 sC10wit { dataBody := "hi" }
    ⟨"a@x", ["ok@y"], "hi", 2, false⟩ (by decide)
  exact ⟨he.1, he.2.1, ha.2.1, hs⟩

/-- Fresh MAIL-state session for the C1 counterexample. -/
def sC1mail : Session := { state := .mail }

/-- Session after MAIL FROM with a bdat-verb local-part. -/
def outC1bdat : Out := handleMail sC1mail ⟨"MAIL", ["FROM:<bdat552@x.com>"]⟩

/-- Session after MAIL FROM with an rcpt-verb local-part. -/
def outC1rcpt : Out := handleMail sC1mail ⟨"MAIL", ["FROM:<rcpt550@x.com>"]⟩

/-- C1 counterexample: the MAIL FROM local-parts bdat552 and rcpt550 both
match the verb-prefixed error pattern (for the verbs bdat and rcpt), yet
the accepted MAIL FROM stores no ErrorResult in any slot, and the later
BDAT LAST and RCPT commands execute normally with no synthetic error
taking precedence. -/
theorem C1_counterexample :
    (ExtractBdatError "bdat552@x.com").isSome = true
    ∧ (ExtractRcptToError "rcpt550@x.com").isSome = true
    ∧ outC1bdat.wire = ["250 OK"]
    ∧ noPendingErrors outC1bdat.session = true
    ∧ (handleBdat outC1bdat.session { bdatInput := "hi" } ⟨"BDAT", ["2", "LAST"]⟩).wire =
        ["250 OK Message accepted for delivery"]
    ∧ outC1rcpt.wire = ["250 OK"]
    ∧ noPendingErrors outC1rcpt.session = true
    ∧ (handleRcpt outC1rcpt.session ⟨"RCPT", ["TO:<b@y>"]⟩).wire = ["250 OK"] := by
  decide

/-- C1 amended: a mail-verb pattern rejects the MAIL FROM itself with the
encoded code and leaves the session unchanged; an accepted MAIL FROM
stores deferred errors exactly for the verbs data, rset, quit, starttls,
noop and auth (the rcpt verb matches on each recipient address at RCPT
time, and the bdat verb is never extracted); each stored error fires
when its command executes, taking precedence over normal processing. -/
theorem C1_amended :
    (∀ (s : Session) (arg : String) (e : ErrorResult),
      s.state = .mail → s.pipeliningMode = false →
      ExtractMailboxFromArg arg ≠ "" →
      IsValidMailbox (ExtractMailboxFromArg arg) s.capabilities.smtputf8 = true →
      ExtractMailFromError (NormaliseMailbox (ExtractMailboxFromArg arg)) = some e →
      (handleMail s ⟨"MAIL", [arg]⟩).wire = [formatErrorResult s e] ∧
      (handleMail s ⟨"MAIL", [arg]⟩).session = s)
    ∧ (∀ (s : Session) (arg : String),
      s.state = .mail → s.pipeliningMode = false →
      ExtractMailboxFromArg arg ≠ "" →
      IsValidMailbox (ExtractMailboxFromArg arg) s.capabilities.smtputf8 = true →
      ExtractMailFromError (NormaliseMailbox (ExtractMailboxFromArg arg)) = none →
      (handleMail s ⟨"MAIL", [arg]⟩).wire = ["250 OK"] ∧
      (handleMail s ⟨"MAIL", [arg]⟩).session =
        { s with
            dataErrorResult :=
              ExtractDataError (NormaliseMailbox (ExtractMailboxFromArg arg)),
            rsetErrorResult :=
              ExtractRsetError (NormaliseMailbox (ExtractMailboxFromArg arg)),
            quitErrorResult :=
              ExtractQuitError (NormaliseMailbox (ExtractMailboxFromArg arg)),
            startTLSErrorResult :=
              ExtractStartTLSError (NormaliseMailbox (ExtractMailboxFromArg arg)),
            noopErrorResult :=
              ExtractNoopError (NormaliseMailbox (ExtractMailboxFromArg arg)),
            authErrorResult :=
              ExtractAuthError (NormaliseMailbox (ExtractMailboxFromArg arg)),
            mailFrom := NormaliseMailbox (ExtractMailboxFromArg arg),
            state := .rcpt })
    ∧ (∀ (s : Session) (e : ErrorResult) (env : Env),
      s.pipeliningMode = false →
      (s.state = .rcpt → s.dataErrorResult = some e →
        (handleData s env).wire = [formatErrorResult s e] ∧
        (handleData s env).stored = [])
      ∧ (s.rsetErrorResult = some e →
        (handleRset s).wire = [formatErrorResult s e] ∧ (handleRset s).session = s)
      ∧ (s.noopErrorResult = some e →
        (handleNoop s).wire = [formatErrorResult s e])
      ∧ (s.quitErrorResult = some e →
        (handleQuit s).wire = [formatErrorResult s e])
      ∧ (s.startTLSErrorResult = some e →
        (handleStartTLS s env).wire = [formatErrorResult s e])
      ∧ ((s.state = .mail ∨ s.state = .auth) → s.authErrorResult = some e →
        (handleAuth s env ⟨"AUTH", ["PLAIN"]⟩).wire = [formatErrorResult s e])) := by
  refine ⟨?_, ?_, ?_⟩
  · intro s arg e h1 h2 h3 h4 h5
    unfold handleMail
    dsimp only [List.headD_cons]
    rw [h1, if_neg (fun h => h rfl), if_neg h3, h4,
      if_neg (fun h => h rfl), h5]
    exact ⟨writeResponse_wire_of_not_pipelining _ _ h2,
      writeResponse_session_of_not_pipelining _ _ h2⟩
  · intro s arg h1 h2 h3 h4 h5
    unfold handleMail
    dsimp only [List.headD_cons]
    rw [h1, if_neg (fun h => h rfl), if_neg h3, h4,
      if_neg (fun h => h rfl), h5]
    dsimp only
    exact ⟨writeResponse_wire_of_not_pipelining _ _ h2,
      writeResponse_session_of_not_pipelining _ _ h2⟩
  · intro s e env hpm
    refine ⟨?_, ?_, ?_, ?_, ?_, ?_⟩
    · intro hst hslot
      unfold handleData
      rw [hst, if_neg (fun h => h rfl), hslot]
      exact ⟨writeResponse_wire_of_not_pipelining _ _ hpm,
        writeResponse_stored _ _⟩
    · intro hslot
      unfold handleRset
      rw [hslot]
      exact ⟨writeResponse_wire_of_not_pipelining _ _ hpm,
        writeResponse_session_of_not_pipelining _ _ hpm⟩
    · intro hslot
      unfold handleNoop
      rw [hslot]
      exact writeResponse_wire_of_not_pipelining _ _ hpm
    · intro hslot
      unfold handleQuit
      rw [hslot]
      dsimp only
      rw [writeResponse_eq_of_not_pipelining _ _ hpm]
      unfold Out.andThen
      dsimp only
      split <;> rfl
    · intro hslot
      unfold handleStartTLS
      rw [hslot]
      exact writeResponse_wire_of_not_pipelining _ _ hpm
    · intro hst hslot
      unfold handleAuth
      rw [if_neg (by rcases hst with h | h <;> simp [h]), hslot]
      exact writeResponse_wire_of_not_pipelining _ _ hpm

/-- MAIL-state session carrying every deferred slot for the C1 witness
firing cases. -/
def sC1fire : Session :=
  { state := .rcpt,
    dataErrorResult := some ⟨552, "", "m"⟩,
    rsetErrorResult := some ⟨451, "", "m"⟩,
    noopErrorResult := some ⟨450, "", "m"⟩,
    quitErrorResult := some ⟨521, "", "m"⟩,
    startTLSErrorResult := some ⟨454, "", "m"⟩ }

/-- Witness for C1 at a mail-verb rejection, an accepted sender with a
data-verb pattern, and concrete deferred firings. -/
theorem C1_witness :
    (handleMail sC1mail ⟨"MAIL", ["FROM:<mail452@x.com>"]⟩).wire =
      [formatErrorResult sC1mail
        ⟨452, "", "452 Requested action not taken: insufficient system storage"⟩]
    ∧ (handleMail sC1mail ⟨"MAIL", ["FROM:<mail452@x.com>"]⟩).session = sC1mail
    ∧ (handleMail sC1mail ⟨"MAIL", ["FROM:<data552@x.com>"]⟩).wire = ["250 OK"]
    ∧ (handleData sC1fire {}).wire = [formatErrorResult sC1fire ⟨552, "", "m"⟩]
    ∧ (handleRset sC1fire).wire = [formatErrorResult sC1fire ⟨451, "", "m"⟩]
    ∧ (handleNoop sC1fire).wire = [formatErrorResult sC1fire ⟨450, "", "m"⟩]
    ∧ (handleQuit sC1fire).wire = [formatErrorResult sC1fire ⟨521, "", "m"⟩]
    ∧ (handleStartTLS sC1fire {}).wire = [formatErrorResult sC1fire ⟨454, "", "m"⟩] := by
  have hrej := C1_amended.1 sC1mail "FROM:<mail452@x.com>"
    ⟨452, "", "452 Requested action not taken: insufficient system storage"⟩
    rfl rfl (by decide) (by decide) (by decide)
  have hacc := C1_amended.2.1 sC1mail "FROM:<data552@x.com>"
    rfl rfl (by decide) (by decide) (by decide)
  have hfire := C1_amended.2.2 sC1fire ⟨552, "", "m"⟩ {} rfl
  have hfire2 := C1_amended.2.2 sC1fire ⟨451, "", "m"⟩ {} rfl
  have hfire3 := C1_amended.2.2 sC1fire ⟨450, "", "m"⟩ {} rfl
  have hfire4 := C1_amended.2.2 sC1fire ⟨521, "", "m"⟩ {} rfl
  have hfire5 := C1_amended.2.2 sC1fire ⟨454, "", "m"⟩ {} rfl
  exact ⟨hrej.1, hrej.2, hacc.1, (hfire.1 rfl rfl).1, (hfire2.2.1 rfl).1,
    hfire3.2.2.1 rfl, hfire4.2.2.2.1 rfl, hfire5.2.2.2.2.1 rfl⟩

/-- HELO-state session with a pending deferred error for the C3
counterexample (reachable via MAIL FROM with a data-verb pattern, RSET,
then a successful STARTTLS, none of which clear the slot). -/
def sC3wit : Session :=
  { state := .helo, dataErrorResult := some ⟨552, "", "m"⟩,
    authenticated := true, tlsActive := true }

/-- C3 counterexample: a successful EHLO (multi-line 250 reply, state
advances to MAIL) does not clear the pending-error slots: the deferred
DATA error survives the EHLO. -/
theorem C3_counterexample :
    goHasPrefix ((handleHelo sC3wit ⟨"EHLO", ["c.example"]⟩).wire.headD "")
      "250-badsmtp.test" = true
    ∧ (handleHelo sC3wit ⟨"EHLO", ["c.example"]⟩).session.state = SState.mail
    ∧ (handleHelo sC3wit ⟨"EHLO", ["c.example"]⟩).session.dataErrorResult =
        some ⟨552, "", "m"⟩ := by
  decide

theorem addStandardCapabilities_mailFrom (s : Session) (parts : List String) :
    (addStandardCapabilities s parts).1.mailFrom = s.mailFrom := rfl

theorem addStandardCapabilities_rcptTo (s : Session) (parts : List String) :
    (addStandardCapabilities s parts).1.rcptTo = s.rcptTo := rfl

theorem addStandardCapabilities_dataErrorResult (s : Session) (parts : List String) :
    (addStandardCapabilities s parts).1.dataErrorResult = s.dataErrorResult := rfl

theorem addStandardCapabilities_rsetErrorResult (s : Session) (parts : List String) :
    (addStandardCapabilities s parts).1.rsetErrorResult = s.rsetErrorResult := rfl

theorem addStandardCapabilities_quitErrorResult (s : Session) (parts : List String) :
    (addStandardCapabilities s parts).1.quitErrorResult = s.quitErrorResult := rfl

theorem addStandardCapabilities_startTLSErrorResult (s : Session) (parts : List String) :
    (addStandardCapabilities s parts).1.startTLSErrorResult = s.startTLSErrorResult := rfl

theorem addStandardCapabilities_noopErrorResult (s : Session) (parts : List String) :
    (addStandardCapabilities s parts).1.noopErrorResult = s.noopErrorResult := rfl

theorem addStandardCapabilities_authErrorResult (s : Session) (parts : List String) :
    (addStandardCapabilities s parts).1.authErrorResult = s.authErrorResult := rfl

theorem addStandardCapabilities_authenticated (s : Session) (parts : List String) :
    (addStandardCapabilities s parts).1.authenticated = s.authenticated := rfl

theorem addStandardCapabilities_tlsActive (s : Session) (parts : List String) :
    (addStandardCapabilities s parts).1.tlsActive = s.tlsActive := rfl

theorem addStandardCapabilities_state (s : Session) (parts : List String) :
    (addStandardCapabilities s parts).1.state = s.state := rfl

theorem addStandardCapabilities_heloName (s : Session) (parts : List String) :
    (addStandardCapabilities s parts).1.heloName = s.heloName := rfl

/-- C3 amended: a successful EHLO leaves mailFrom, rcptTo and all six
pending-error slots unchanged (it performs no RSET-like clearing), and
preserves the authenticated flag and the TLS status, advancing the state
to MAIL and recording the hostname. -/
theorem C3_amended (s : Session) (hostname : String)
    (h1 : s.state = .helo)
    (h2 : ExtractHeloError hostname = none)
    (h3 : hasCapability (parseCapabilityLabel (goToLower hostname)) "reject" = false)
    (h4 : hasCapability (parseCapabilityLabel (goToLower hostname)) "noehl" = false) :
    (handleHelo s ⟨"EHLO", [hostname]⟩).session.mailFrom = s.mailFrom
    ∧ (handleHelo s ⟨"EHLO", [hostname]⟩).session.rcptTo = s.rcptTo
    ∧ (handleHelo s ⟨"EHLO", [hostname]⟩).session.dataErrorResult = s.dataErrorResult
    ∧ (handleHelo s ⟨"EHLO", [hostname]⟩).session.rsetErrorResult = s.rsetErrorResult
    ∧ (handleHelo s ⟨"EHLO", [hostname]⟩).session.quitErrorResult = s.quitErrorResult
    ∧ (handleHelo s ⟨"EHLO", [hostname]⟩).session.startTLSErrorResult =
        s.startTLSErrorResult
    ∧ (handleHelo s ⟨"EHLO", [hostname]⟩).session.noopErrorResult = s.noopErrorResult
    ∧ (handleHelo s ⟨"EHLO", [hostname]⟩).session.authErrorResult = s.authErrorResult
    ∧ (handleHelo s ⟨"EHLO", [hostname]⟩).session.authenticated = s.authenticated
    ∧ (handleHelo s ⟨"EHLO", [hostname]⟩).session.tlsActive = s.tlsActive
    ∧ (handleHelo s ⟨"EHLO", [hostname]⟩).session.state = SState.mail
    ∧ (handleHelo s ⟨"EHLO", [hostname]⟩).session.heloName = hostname := by
  unfold handleHelo handleEhlo buildEhloResponse
  dsimp only [List.headD_cons]
  rw [h1, if_neg (fun h => h rfl), h2]
  dsimp only
  rw [if_pos rfl, h3, h4, if_neg (by decide)]
  refine ⟨?_, ?_, ?_, ?_, ?_, ?_, ?_, ?_, ?_, ?_, ?_, ?_⟩
  · rw [writeResponse_mailFrom]
    exact addStandardCapabilities_mailFrom ..
  · rw [writeResponse_rcptTo]
    exact addStandardCapabilities_rcptTo ..
  · rw [writeResponse_dataErrorResult]
    exact addStandardCapabilities_dataErrorResult ..
  · rw [writeResponse_rsetErrorResult]
    exact addStandardCapabilities_rsetErrorResult ..
  · rw [writeResponse_quitErrorResult]
    exact addStandardCapabilities_quitErrorResult ..
  · rw [writeResponse_startTLSErrorResult]
    exact addStandardCapabilities_startTLSErrorResult ..
  · rw [writeResponse_noopErrorResult]
    exact addStandardCapabilities_noopErrorResult ..
  · rw [writeResponse_authErrorResult]
    exact addStandardCapabilities_authErrorResult ..
  · rw [writeResponse_authenticated]
    exact addStandardCapabilities_authenticated ..
  · rw [writeResponse_tlsActive]
    exact addStandardCapabilities_tlsActive ..
  · rw [writeResponse_state]
    exact addStandardCapabilities_state ..
  · rw [writeResponse_heloName]
    exact addStandardCapabilities_heloName ..

/-- Witness for C3 applying the amended statement to a session carrying
transaction state and a pending error. -/
theorem C3_witness :
    (handleHelo sC3wit ⟨"EHLO", ["c.example"]⟩).session.dataErrorResult =
      sC3wit.dataErrorResult
    ∧ (handleHelo sC3wit ⟨"EHLO", ["c.example"]⟩).session.authenticated =
        sC3wit.authenticated
    ∧ (handleHelo sC3wit ⟨"EHLO", ["c.example"]⟩).session.tlsActive = sC3wit.tlsActive
    ∧ (handleHelo sC3wit ⟨"EHLO", ["c.example"]⟩).session.state = SState.mail := by
  have h := C3_amended sC3wit "c.example" rfl (by decide) (by decide) (by decide)
  exact ⟨h.2.2.1, h.2.2.2.2.2.2.2.2.1, h.2.2.2.2.2.2.2.2.2.1, h.2.2.2.2.2.2.2.2.2.2.1⟩

/-- MAIL-state session with a hostname recorded and a pending deferred
error, for the C5 counterexample. -/
def sC5wit : Session :=
  { state := .mail, heloName := "c", dataErrorResult := some ⟨552, "", "m"⟩ }

/-- C5 counterexample: after a successful STARTTLS handshake the state
resets to HELO and TLS is active, but heloName and the pending-error
slots are not cleared, contrary to the claim. -/
theorem C5_counterexample :
    (handleStartTLS sC5wit {}).wire = ["220 Ready to start TLS"]
    ∧ (handleStartTLS sC5wit {}).session.state = SState.helo
    ∧ (handleStartTLS sC5wit {}).session.tlsActive = true
    ∧ (handleStartTLS sC5wit {}).session.heloName = "c"
    ∧ (handleStartTLS sC5wit {}).session.dataErrorResult = some ⟨552, "", "m"⟩ := by
  decide

/-- C5 amended: STARTTLS is refused with 554 when TLS is already active
and no deferred STARTTLS error is pending (a pending error takes
precedence even then); on a successful handshake the state resets to
HELO and tlsActive becomes true, while heloName, mailFrom, rcptTo and
every pending-error slot are left unchanged, not cleared. -/
theorem C5_amended :
    (∀ (s : Session) (env : Env),
      s.pipeliningMode = false → s.startTLSErrorResult = none → s.tlsActive = true →
      (handleStartTLS s env).wire = ["554 TLS already started"])
    ∧ (∀ (s : Session) (e : ErrorResult) (env : Env),
      s.pipeliningMode = false → s.startTLSErrorResult = some e →
      (handleStartTLS s env).wire = [formatErrorResult s e])
    ∧ (∀ (s : Session) (env : Env),
      s.pipeliningMode = false → s.startTLSErrorResult = none →
      s.tlsActive = false → env.tlsHandshakeOk = true →
      (handleStartTLS s env).wire = ["220 Ready to start TLS"] ∧
      (handleStartTLS s env).session = { s with tlsActive := true, state := .helo }) := by
  refine ⟨?_, ?_, ?_⟩
  · intro s env hpm hslot htls
    unfold handleStartTLS
    rw [hslot]
    dsimp only
    rw [if_pos htls]
    exact writeResponse_wire_of_not_pipelining _ _ hpm
  · intro s e env hpm hslot
    unfold handleStartTLS
    rw [hslot]
    exact writeResponse_wire_of_not_pipelining _ _ hpm
  · intro s env hpm hslot htls henv
    unfold handleStartTLS
    rw [hslot]
    dsimp only
    rw [htls, if_neg (by decide),
      writeResponse_eq_of_not_pipelining _ _ hpm]
    unfold Out.andThen
    dsimp only
    simp [henv, hslot,
      show isResponse421 "220 Ready to start TLS" = false from by decide]

/-- TLS-active session for the C5 witness. -/
def sC5tls : Session := { state := .mail, tlsActive := true }

/-- Session with a pending STARTTLS error for the C5 witness. -/
def sC5slot : Session := { state := .mail, startTLSErrorResult := some ⟨454, "", "m"⟩ }

/-- Witness for C5 at a TLS-active session, a pending STARTTLS error and
a successful upgrade. -/
theorem C5_witness :
    (handleStartTLS sC5tls {}).wire = ["554 TLS already started"]
    ∧ (handleStartTLS sC5slot {}).wire = [formatErrorResult sC5slot ⟨454, "", "m"⟩]
    ∧ (handleStartTLS sC5wit {}).session =
        { sC5wit with tlsActive := true, state := .helo } := by
  refine ⟨?_, ?_, ?_⟩
  · exact C5_amended.1 sC5tls {} rfl rfl rfl
  · exact C5_amended.2.1 sC5slot ⟨454, "", "m"⟩ {} rfl rfl
  · exact (C5_amended.2.2 sC5wit {} rfl rfl rfl rfl).2

/-- Reduction of a full RSET command step when no RSET error is pending
and the state admits RSET: reply 250 OK, state back to MAIL, transaction
fields cleared, everything else (the pending-error slots included)
untouched. -/
theorem handleCommand_RSET_ok (s : Session) (env : Env)
    (hpm : s.pipeliningMode = false) (hslot : s.rsetErrorResult = none)
    (hallow : (Command.mk "RSET" []).IsAllowedInState s.state = true) :
    handleCommand s env "RSET" =
      { session := { s with state := .mail, mailFrom := "", rcptTo := [] },
        wire := ["250 OK"], closed := false, stored := [], res := .ok } := by
  have hr : handleRset s =
      { session := { s with state := .mail, mailFrom := "", rcptTo := [] },
        wire := ["250 OK"], closed := false, stored := [], res := .ok } := by
    unfold handleRset
    rw [hslot]
    dsimp only
    rw [writeResponse_eq_of_not_pipelining]
    · simp [hslot, show isResponse421 "250 OK" = false from by decide]
    · exact hpm
  have hpc : parseAndLogCommand s "RSET" = .cmd s ⟨"RSET", []⟩ := by
    unfold parseAndLogCommand
    rw [show ParseCommand "RSET" = some ⟨"RSET", []⟩ from rfl]
    dsimp only
    rw [if_neg (by decide), if_neg (fun h => h hallow),
      show (Command.mk "RSET" []).ValidateArgs = none from rfl]
  unfold handleCommand
  rw [hpc]
  dsimp only
  rw [if_neg (by decide)]
  unfold handleCommandDispatch
  rw [show dispatch s env ⟨"RSET", []⟩ = handleRset s from rfl, hr]
  dsimp only
  rw [if_neg (by rintro (h | h) <;> exact absurd h (by decide))]

/-- BDAT-state session for the C6 counterexample. -/
def sC6bdat : Session := { state := .bdat }

/-- Mid-transaction session with a pending DATA error for the C6
counterexample. -/
def sC6pend : Session :=
  { state := .rcpt, mailFrom := "data552@x.com",
    dataErrorResult := some ⟨552, "", "m"⟩ }

/-- C6 counterexample: RSET in BDAT state is rejected with 503 and
changes nothing, and a successful RSET does not clear the pending-error
slots (the deferred DATA error survives). -/
theorem C6_counterexample :
    (handleCommand sC6bdat {} "RSET").wire =
      ["503 Bad sequence - RSET not allowed in BDAT state"]
    ∧ (handleCommand sC6bdat {} "RSET").session = sC6bdat
    ∧ (handleCommand sC6pend {} "RSET").wire = ["250 OK"]
    ∧ (handleCommand sC6pend {} "RSET").session.state = SState.mail
    ∧ (handleCommand sC6pend {} "RSET").session.dataErrorResult =
        some ⟨552, "", "m"⟩ := by
  decide

/-- C6 amended: RSET is allowed exactly in the HELO, MAIL, RCPT and AUTH
states; there, absent a scheduled rset error, it replies 250, returns
the state to MAIL and clears mailFrom and rcptTo, leaving
authentication, TLS status and the pending-error slots unchanged, and a
repeated RSET behaves identically (idempotence); in the DATA and BDAT
states RSET is rejected with 503 and the session is unchanged. -/
theorem C6_amended :
    (∀ st : SState, (Command.mk "RSET" []).IsAllowedInState st = true ↔
      (st = .helo ∨ st = .mail ∨ st = .rcpt ∨ st = .auth))
    ∧ (∀ (s : Session) (env : Env),
      s.pipeliningMode = false → s.rsetErrorResult = none →
      (s.state = .helo ∨ s.state = .mail ∨ s.state = .rcpt ∨ s.state = .auth) →
      (handleCommand s env "RSET").wire = ["250 OK"] ∧
      (handleCommand s env "RSET").session =
        { s with state := .mail, mailFrom := "", rcptTo := [] } ∧
      (handleCommand (handleCommand s env "RSET").session env "RSET").wire =
        ["250 OK"] ∧
      (handleCommand (handleCommand s env "RSET").session env "RSET").session =
        (handleCommand s env "RSET").session)
    ∧ (∀ (s : Session) (env : Env),
      s.pipeliningMode = false → (s.state = .data ∨ s.state = .bdat) →
      (handleCommand s env "RSET").wire =
        ["503 Bad sequence - RSET not allowed in " ++ stateString s.state ++ " state"]
      ∧ (handleCommand s env "RSET").session = s) := by
  refine ⟨?_, ?_, ?_⟩
  · intro st
    cases st <;> decide
  · intro s env hpm hslot hst
    have hallow : (Command.mk "RSET" []).IsAllowedInState s.state = true := by
      rcases hst with h | h | h | h <;> rw [h] <;> decide
    have h1 := handleCommand_RSET_ok s env hpm hslot hallow
    have h2 := handleCommand_RSET_ok
      { s with state := .mail, mailFrom := "", rcptTo := [] } env hpm hslot
      (by exact (by decide :
        (Command.mk "RSET" []).IsAllowedInState SState.mail = true))
    rw [h1]
    dsimp only
    rw [h2]
    exact ⟨rfl, rfl, rfl, rfl⟩
  · intro s env hpm hst
    have hnallow : ¬ (Command.mk "RSET" []).IsAllowedInState s.state = true := by
      rcases hst with h | h <;> rw [h] <;> decide
    have hpc : parseAndLogCommand s "RSET" = .response (writeResponse s
        ("503 Bad sequence - RSET not allowed in " ++ stateString s.state ++ " state")) := by
      unfold parseAndLogCommand
      rw [show ParseCommand "RSET" = some ⟨"RSET", []⟩ from rfl]
      dsimp only
      rw [if_neg (by decide), if_pos hnallow]
      rfl
    unfold handleCommand
    rw [hpc]
    exact ⟨writeResponse_wire_of_not_pipelining _ _ hpm,
      writeResponse_session_of_not_pipelining _ _ hpm⟩

/-- Authenticated TLS session in RCPT state for the C6 witness. -/
def sC6wit : Session :=
  { state := .rcpt, mailFrom := "a@x", rcptTo := ["b@y"],
    authenticated := true, tlsActive := true,
    dataErrorResult := some ⟨552, "", "m"⟩ }

/-- Witness for C6: RSET from RCPT state clears the transaction, keeps
authentication, TLS and the pending slot, and repeats identically; RSET
in BDAT state gets the 503. -/
theorem C6_witness :
    (handleCommand sC6wit {} "RSET").wire = ["250 OK"]
    ∧ (handleCommand sC6wit {} "RSET").session =
        { sC6wit with state := .mail, mailFrom := "", rcptTo := [] }
    ∧ (handleCommand (handleCommand sC6wit {} "RSET").session {} "RSET").session =
        (handleCommand sC6wit {} "RSET").session
    ∧ (handleCommand sC6bdat {} "RSET").wire =
        ["503 Bad sequence - RSET not allowed in " ++ stateString sC6bdat.state ++ " state"] := by
  have h1 := C6_amended.2.1 sC6wit {} rfl rfl (by decide)
  have h2 := C6_amended.2.2 sC6bdat {} rfl (by decide)
  exact ⟨h1.1, h1.2.1, h1.2.2.2, h2.1⟩

/-- Session with an advertised SIZE of 1000 in RCPT state for the C4
counterexample. -/
def sC4wit : Session :=
  { state := .rcpt, advertisedSize := 1000, mailFrom := "a@x", rcptTo := ["b@y"] }

/-- A 1001-byte DATA body, one byte over the advertised SIZE. -/
def envC4big : Env := { dataBody := String.mk (List.replicate 1001 'a') }

set_option maxRecDepth 8192 in
/-- C4 counterexample: on a body exceeding the effective SIZE the server
writes no 552 reply at all (the only line on the wire is the 354), the
store is not called, and the handler returns a non-nil error that
terminates the session instead of continuing. -/
theorem C4_counterexample :
    (handleData sC4wit envC4big).wire = ["354 End data with <CR><LF>.<CR><LF>"]
    ∧ (handleData sC4wit envC4big).stored = []
    ∧ (handleData sC4wit envC4big).res =
        .fatal "message size exceeds limit of 1000 bytes" := by
  decide

theorem getMaxMessageSize_dataState (s : Session) :
    getMaxMessageSize { s with state := SState.data, dataErrorResult := none } =
      getMaxMessageSize s := rfl

/-- C4 amended: the effective SIZE is the per-session advertised SIZE if
set, else 10 MiB; a body (after dot-unstuffing) exceeding it makes the
handler return an error that terminates the session with no reply after
the 354 and no Store call; only bodies within the limit are persisted,
with a Store call and the 250 acknowledgement. -/
theorem C4_amended :
    (∀ s : Session, getMaxMessageSize s =
      if s.advertisedSize > 0 then s.advertisedSize else 10485760)
    ∧ (∀ (s : Session) (env : Env),
      s.state = .rcpt → s.dataErrorResult = none → s.pipeliningMode = false →
      env.dataBody.utf8ByteSize > getMaxMessageSize s →
      (handleData s env).wire = ["354 End data with <CR><LF>.<CR><LF>"] ∧
      (handleData s env).stored = [] ∧
      (handleData s env).res = .fatal
        ("message size exceeds limit of " ++ toString (getMaxMessageSize s) ++ " bytes"))
    ∧ (∀ (s : Session) (env : Env),
      s.state = .rcpt → s.dataErrorResult = none → s.pipeliningMode = false →
      env.dataBody.utf8ByteSize ≤ getMaxMessageSize s → env.storeErr = none →
      (handleData s env).wire =
        ["354 End data with <CR><LF>.<CR><LF>", "250 OK Message accepted for delivery"] ∧
      (handleData s env).stored =
        [(storeMessage { s with state := .data } env env.dataBody).1] ∧
      (handleData s env).res = .ok) := by
  refine ⟨fun s => rfl, ?_, ?_⟩
  · intro s env h1 h2 hpm hov
    unfold handleData
    rw [h1, if_neg (fun h => h rfl), h2]
    dsimp only
    rw [writeResponse_eq_of_not_pipelining]
    · unfold Out.andThen
      dsimp only
      rw [show isResponse421 "354 End data with <CR><LF>.<CR><LF>" = false
        from by decide]
      rw [if_pos (show (if (false = true) then HRes.eof else HRes.ok) = HRes.ok
        from rfl)]
      rw [getMaxMessageSize_dataState, if_pos hov]
      exact ⟨rfl, rfl, rfl⟩
    · exact hpm
  · intro s env h1 h2 hpm hle hse
    unfold handleData
    rw [h1, if_neg (fun h => h rfl), h2]
    dsimp only
    rw [writeResponse_eq_of_not_pipelining]
    · unfold Out.andThen
      dsimp only
      rw [show isResponse421 "354 End data with <CR><LF>.<CR><LF>" = false
        from by decide]
      rw [if_pos (show (if (false = true) then HRes.eof else HRes.ok) = HRes.ok
        from rfl)]
      rw [getMaxMessageSize_dataState, if_neg (by omega)]
      unfold storeMessage
      dsimp only
      rw [hse]
      dsimp only
      rw [writeResponse_eq_of_not_pipelining]
      · refine ⟨rfl, rfl, ?_⟩
        rw [show isResponse421 "250 OK Message accepted for delivery" = false
          from by decide]
        rfl
      · exact hpm
    · exact hpm

set_option maxRecDepth 8192 in
/-- Witness for C4 at the 1001-byte overflow and a small accepted body. -/
theorem C4_witness :
    (handleData sC4wit envC4big).res =
      .fatal ("message size exceeds limit of " ++
        toString (getMaxMessageSize sC4wit) ++ " bytes")
    ∧ (handleData sC4wit { dataBody := "hi" }).wire =
        ["354 End data with <CR><LF>.<CR><LF>", "250 OK Message accepted for delivery"]
    ∧ (handleData sC4wit { dataBody := "hi" }).stored =
        [(storeMessage { sC4wit with state := .data } { dataBody := "hi" } "hi").1] := by
  have hbig := C4_amended.2.1 sC4wit envC4big rfl rfl rfl (by decide)
  have hok := C4_amended.2.2 sC4wit { dataBody := "hi" } rfl rfl rfl (by decide) rfl
  exact ⟨hbig.2.2, hok.1, hok.2.1⟩

/-- C7: a pipelining-breaking command (DATA, BDAT, AUTH, STARTTLS, QUIT)
that parses and validates first flushes the responseQueue in FIFO order
onto the wire ahead of everything the command itself produces, and
pipelining mode is exited by the step; a non-421 response written in
pipelining mode is appended to the queue instead of being transmitted. -/
theorem C7_pipelining_flush :
    (∀ (s : Session) (env : Env) (line : String) (c : Command),
      ParseCommand line = some c → c.IsValid = true →
      c.IsAllowedInState s.state = true → c.ValidateArgs = none →
      breaksPipelining c.name = true →
      (handleCommand s env line).wire =
        s.responseQueue ++
          (handleCommand { s with responseQueue := [], pipeliningMode := false }
            env line).wire
      ∧ (handleCommand s env line).session.pipeliningMode = false)
    ∧ (∀ (s : Session) (r : String),
      s.pipeliningMode = true → isResponse421 r = false →
      writeResponse s r =
        { session := { s with responseQueue := s.responseQueue ++ [r] } }) := by
  constructor
  · intro s env line c hp hv ha hargs hb
    have hpc : parseAndLogCommand s line = .cmd s c := by
      unfold parseAndLogCommand
      rw [hp]
      dsimp only
      rw [if_neg (fun h => h hv), if_neg (fun h => h ha), hargs]
    have hpc2 : parseAndLogCommand
        { s with responseQueue := [], pipeliningMode := false } line =
        .cmd { s with responseQueue := [], pipeliningMode := false } c := by
      unfold parseAndLogCommand
      rw [hp]
      dsimp only
      rw [if_neg (fun h => h hv), if_neg (fun h => h ha), hargs]
    constructor
    · unfold handleCommand
      rw [hpc, hpc2]
      dsimp only
      rw [if_pos hb, if_pos hb]
      dsimp only [flushResponses]
      simp
    · unfold handleCommand
      rw [hpc]
      dsimp only
      rw [if_pos hb]
      dsimp only [flushResponses]
      rw [handleCommandDispatch_pipeliningMode]
  · intro s r hpm h421
    unfold writeResponse
    dsimp only
    rw [if_pos ⟨hpm, by simp [h421]⟩]

/-- Pipelined session with two queued replies for the C7 witness. -/
def sC7wit : Session :=
  { state := .mail, pipeliningMode := true, responseQueue := ["250 OK", "250 OK"] }

/-- Witness for C7 at a pipelined QUIT and a queued NOOP reply. -/
theorem C7_witness :
    (handleCommand sC7wit {} "QUIT").wire =
      sC7wit.responseQueue ++
        (handleCommand { sC7wit with responseQueue := [], pipeliningMode := false }
          {} "QUIT").wire
    ∧ (handleCommand sC7wit {} "QUIT").session.pipeliningMode = false
    ∧ writeResponse sC7wit "250 OK" =
        { session :=
            { sC7wit with responseQueue := sC7wit.responseQueue ++ ["250 OK"] } } := by
  have h := C7_pipelining_flush.1 sC7wit {} "QUIT" ⟨"QUIT", []⟩ rfl rfl rfl rfl rfl
  have h2 := C7_pipelining_flush.2 sC7wit "250 OK" rfl (by decide)
  exact ⟨h.1, h.2, h2⟩

end BadSMTP
